import Mathlib

/-
Verification development for the K6-framework repository: a shallow embedding
of the Node.js post-processing utilities (report-helpers.js,
process-k6-results.js, generate-protocol-report.js) and of the shell driver
run_k6_tests.sh, together with theorems about the embedded definitions.

JavaScript numbers are modelled as rationals (ℚ); all arithmetic in the
embedded code paths is exact in IEEE doubles for realistic inputs, so the
rational model is faithful.  JavaScript objects used as string-keyed maps are
modelled as functions `String → Option _` (a key that was never assigned reads
back `none`, matching `undefined`).  JSON lines are modelled post-parse: a
line is `Option K6Record`, with `none` standing for a line on which
`JSON.parse` throws.  JavaScript `Array.prototype.sort` with a numeric (or
default string) comparator is modelled by insertion sort: for a total order
the sorted result is unique, so the choice of algorithm is immaterial.
-/

/-- The ascending numeric sort `values.slice().sort((a, b) => a - b)` used by
both `calculateStats` implementations.  It sorts a copy; the input list is a
pure value and is not modified. -/
def jsSortAsc (v : List ℚ) : List ℚ :=
  List.insertionSort (· ≤ ·) v

/-- The index computation `Math.floor((num/den) * count)` that both stats
implementations use for percentile indices (e.g. `Math.floor(0.9 * count)` is
`pctIdx 9 10 count`). -/
def pctIdx (num den count : ℕ) : ℕ :=
  (⌊((num : ℚ) / (den : ℚ)) * (count : ℚ)⌋).toNat

namespace ReportHelpers

/-- The statistics object returned by `calculateStats` in report-helpers.js. -/
structure Stats where
  min : ℚ
  max : ℚ
  avg : ℚ
  median : ℚ
  p90 : ℚ
  p95 : ℚ
  p99 : ℚ
  count : ℕ
deriving Repr, DecidableEq

/-- The all-zero stats object returned on missing or empty input. -/
def zeroStats : Stats :=
  { min := 0, max := 0, avg := 0, median := 0, p90 := 0, p95 := 0, p99 := 0, count := 0 }

/-- Embedding of `calculateStats(values)` from report-helpers.js.  The
argument is `Option (List ℚ)`: `none` models a missing/undefined argument
(the `!values` guard).  `sorted.reduce((a, b) => a + b, 0)` is a left fold. -/
def calculateStats (values : Option (List ℚ)) : Stats :=
  match values with
  | none => zeroStats
  | some v =>
    if v.length = 0 then zeroStats
    else
      let sorted := jsSortAsc v
      let sum := sorted.foldl (· + ·) 0
      let count := sorted.length
      { min := sorted.getD 0 0
        max := sorted.getD (count - 1) 0
        avg := sum / (count : ℚ)
        median :=
          if count % 2 = 1 then sorted.getD (count / 2) 0
          else (sorted.getD (count / 2 - 1) 0 + sorted.getD (count / 2) 0) / 2
        p90 := sorted.getD (pctIdx 9 10 count) 0
        p95 := sorted.getD (pctIdx 95 100 count) 0
        p99 := sorted.getD (pctIdx 99 100 count) 0
        count := count }

end ReportHelpers

namespace GenerateProtocolReport

/-- The statistics object returned by `calculateStats` in
generate-protocol-report.js (note the field is `med`, not `median`). -/
structure Stats where
  min : ℚ
  max : ℚ
  avg : ℚ
  med : ℚ
  p90 : ℚ
  p95 : ℚ
  p99 : ℚ
  count : ℕ
deriving Repr, DecidableEq

/-- The all-zero stats object returned on non-array or empty input. -/
def zeroStats : Stats :=
  { min := 0, max := 0, avg := 0, med := 0, p90 := 0, p95 := 0, p99 := 0, count := 0 }

/-- Embedding of `calculateStats(values = [])` from
generate-protocol-report.js.  `none` models a non-array argument (the
`!Array.isArray(values)` guard).  Indices use `count - 1`:
`med = sorted[Math.floor((count - 1) / 2)]`,
`p90 = sorted[Math.floor((count - 1) * 0.90)]`, etc. -/
def calculateStats (values : Option (List ℚ)) : Stats :=
  match values with
  | none => zeroStats
  | some v =>
    if v.length = 0 then zeroStats
    else
      let sorted := jsSortAsc v
      let count := sorted.length
      let sum := sorted.foldl (· + ·) 0
      { min := sorted.getD 0 0
        max := sorted.getD (count - 1) 0
        avg := sum / (count : ℚ)
        med := sorted.getD ((count - 1) / 2) 0
        p90 := sorted.getD (pctIdx 90 100 (count - 1)) 0
        p95 := sorted.getD (pctIdx 95 100 (count - 1)) 0
        p99 := sorted.getD (pctIdx 99 100 (count - 1)) 0
        count := count }

end GenerateProtocolReport

/-- A nested tag object (the wrapper case `tags.tags` handled by
`getTransactionName`); only its `transaction` field is ever read. -/
structure TagLeaf where
  transaction : Option String
deriving Repr, DecidableEq

/-- The tag object attached to a k6 metric point (`data.tags`).  Fields are
`Option`s: `none` models an absent property.  String truthiness is modelled
where the code tests it (the empty string is falsy). -/
structure TagWrap where
  tags : Option TagLeaf
  transaction : Option String
  url : Option String
  size : Option Int
  status : Option Int
  initiatorType : Option String
deriving Repr, DecidableEq

namespace ReportHelpers

/-- Embedding of `getTransactionName(tags)` from report-helpers.js:
`const tagObj = tags.tags || tags; if (tagObj.transaction) return
tagObj.transaction; return 'unknown'`.  An empty-string `transaction` is
falsy in JavaScript, hence yields `"unknown"`. -/
def getTransactionName (tags : Option TagWrap) : String :=
  match tags with
  | none => "unknown"
  | some t =>
    let resolved : Option String :=
      match t.tags with
      | some leaf => leaf.transaction
      | none => t.transaction
    match resolved with
    | some s => if s = "" then "unknown" else s
    | none => "unknown"

end ReportHelpers

/-- The transaction field that `getTransactionName` consults: the
`transaction` entry of the nested `tags.tags` object when that wrapper is
present, and of the tag object itself otherwise. -/
def resolvedTransactionTag (w : TagWrap) : Option String :=
  match w.tags with
  | some leaf => leaf.transaction
  | none => w.transaction

/-- The subobject `data` of a parsed k6 metric record.  Exactly the fields the
processing code reads are retained: `tags`, `value` and `time` (`time` is only
consulted by the run start/end timestamp extraction). -/
structure RecData where
  tags : Option TagWrap
  value : ℚ
  time : Option Int
deriving Repr, DecidableEq

/-- A parsed k6 JSON-lines record.  Exactly the fields the processing code
reads are retained: `type`, `metric` and `data`. -/
structure K6Record where
  type : String
  metric : String
  data : Option RecData
deriving Repr, DecidableEq

/-- One line of the k6 JSON-lines output, post-parse: `none` stands for a line
on which `JSON.parse` throws (the per-line `catch` ignores it). -/
abbrev JsonLine := Option K6Record

/-- A pass/fail accumulator (`{ requests, passes, fails }`) as used for
`browser_page_load_success` and `protocol_req_success_rate`. -/
structure PassFail where
  requests : ℕ
  passes : ℕ
  fails : ℕ
deriving Repr, DecidableEq

/-- An entry pushed onto `data.resource_details[type]`.  Browser resource
entries set `initiatorType` and keep the original tag object; protocol
resource entries have no `initiatorType`; fallback entries keep no tags. -/
structure ResourceDetail where
  url : String
  duration : ℚ
  size : ℚ
  status : Int
  transaction : String
  initiatorType : Option String
  origTags : Option TagWrap
deriving Repr, DecidableEq

namespace ProcessK6Results

/-- The hard-coded `config.mantleMetricKeys` list. -/
def mantleMetricKeys : List String :=
  ["browser_mantle_first_ad_load", "browser_mantle_first_ad_render",
   "browser_mantle_first_ad_request", "browser_mantle_first_ad_response",
   "browser_mantle_gtm_loaded", "browser_mantle_gpt_loaded",
   "browser_mantle_scroll_depth", "browser_mantle_content_depth_px",
   "browser_mantle_third_party_fired", "browser_mantle_deferred_fired",
   "browser_mantle_video_player_loaded", "browser_mantle_ad_refresh_rate",
   "browser_mantle_ad_bidder_amount", "browser_mantle_first_scroll",
   "browser_mantle_adsrendered", "browser_mantle_adsviewable"]

/-- The mutable `data` object built by the aggregation loop of
`processK6Output`.  String-keyed objects are modelled as functions returning
`Option`; `resource_details` keeps its key set explicit (an association list)
because the fallback logic enumerates its keys.  The fields from
`serverProcessingTime` down are NOT present on the initial object in the
source (they are only created later by `addFallbackDataIfNeeded`); the
aggregation loop's `browserMetricsMap` therefore holds `undefined` for them
and the corresponding metrics are never aggregated — see `routeMetric`. -/
structure AggData where
  lcp : String → Option (List ℚ)
  fcp : String → Option (List ℚ)
  cls : String → Option (List ℚ)
  ttfb : String → Option (List ℚ)
  pageLoadTime : String → Option (List ℚ)
  browser_page_load_success : String → Option PassFail
  protocol_ttfb : String → Option (List ℚ)
  protocol_ttlb : String → Option (List ℚ)
  protocol_req_success_rate : String → Option PassFail
  resource_details : List (String × List ResourceDetail)
  mantleData : String → String → Option (List ℚ)
  serverProcessingTime : String → Option (List ℚ)
  networkTime : String → Option (List ℚ)
  domProcessingTime : String → Option (List ℚ)
  resourceLoadTime : String → Option (List ℚ)
  scriptExecutionTime : String → Option (List ℚ)
  scriptParsingTime : String → Option (List ℚ)
  jsLoadTime : String → Option (List ℚ)
  cssLoadTime : String → Option (List ℚ)
  imgLoadTime : String → Option (List ℚ)
  fontLoadTime : String → Option (List ℚ)
  otherResourceLoadTime : String → Option (List ℚ)

/-- The initial `data` object of `processK6Output` (source lines 154-168). -/
def initData : AggData :=
  { lcp := fun _ => none
    fcp := fun _ => none
    cls := fun _ => none
    ttfb := fun _ => none
    pageLoadTime := fun _ => none
    browser_page_load_success := fun _ => none
    protocol_ttfb := fun _ => none
    protocol_ttlb := fun _ => none
    protocol_req_success_rate := fun _ => none
    resource_details :=
      [("js", []), ("css", []), ("img", []), ("font", []), ("other", []), ("html", [])]
    mantleData := fun _ _ => none
    serverProcessingTime := fun _ => none
    networkTime := fun _ => none
    domProcessingTime := fun _ => none
    resourceLoadTime := fun _ => none
    scriptExecutionTime := fun _ => none
    scriptParsingTime := fun _ => none
    jsLoadTime := fun _ => none
    cssLoadTime := fun _ => none
    imgLoadTime := fun _ => none
    fontLoadTime := fun _ => none
    otherResourceLoadTime := fun _ => none }

/-- The aggregation state of `processK6Output`: the `data` object, the
`templates` Set (a duplicate-free list in insertion order) and the
`templateMetricCounts` object. -/
structure AggState where
  data : AggData
  templates : List String
  templateMetricCounts : String → ℕ

/-- The state at the start of the aggregation loop. -/
def initState : AggState :=
  { data := initData, templates := [], templateMetricCounts := fun _ => 0 }

/-- The JavaScript push pattern `if (!m[k]) m[k] = []; m[k].push(v)` on a
string-keyed map of numeric arrays. -/
def pushTrend (m : String → Option (List ℚ)) (k : String) (v : ℚ) :
    String → Option (List ℚ) :=
  fun t => if t = k then some ((m k).getD [] ++ [v]) else m t

/-- The pass/fail update pattern: create `{requests:0,passes:0,fails:0}` if
absent, bump `requests`, then bump `passes` or `fails`. -/
def bumpPassFail (m : String → Option PassFail) (k : String) (pass : Bool) :
    String → Option PassFail :=
  fun t =>
    if t = k then
      let cur := (m k).getD { requests := 0, passes := 0, fails := 0 }
      some { requests := cur.requests + 1
             passes := cur.passes + (if pass then 1 else 0)
             fails := cur.fails + (if pass then 0 else 1) }
    else m t

/-- JavaScript `s || dflt` for an optional string: absent and `""` are falsy. -/
def strOr (o : Option String) (dflt : String) : String :=
  match o with
  | some s => if s = "" then dflt else s
  | none => dflt

/-- JavaScript `parseInt(x) || dflt` where `o` models the `parseInt` result
(`none` for `NaN`): `0` is falsy, so it is replaced by the default. -/
def intOr (o : Option Int) (dflt : Int) : Int :=
  match o with
  | some v => if v = 0 then dflt else v
  | none => dflt

/-- Lookup in the `resource_details` association list (a JavaScript property
read `data.resource_details[ty]`). -/
def rdLookup (rd : List (String × List ResourceDetail)) (ty : String) :
    Option (List ResourceDetail) :=
  (rd.find? (fun p => p.1 = ty)).map Prod.snd

/-- Push an item onto `data.resource_details[ty]` (the key is present). -/
def rdPush (rd : List (String × List ResourceDetail)) (ty : String)
    (item : ResourceDetail) : List (String × List ResourceDetail) :=
  rd.map (fun p => if p.1 = ty then (p.1, p.2 ++ [item]) else p)

/-- The `resourceTrendMetrics` lookup table of the aggregation loop. -/
def resourceTrendType (m : String) : Option String :=
  if m = "browser_resource_js" then some "js"
  else if m = "browser_resource_css" then some "css"
  else if m = "browser_resource_img" then some "img"
  else if m = "browser_resource_font" then some "font"
  else if m = "browser_resource_other" then some "other"
  else none

/-- The metric-routing part of the aggregation loop body (source lines
189-277), acting on the `data` object.  Of the `browserMetricsMap` entries
only `browser_lcp`, `browser_fcp`, `browser_cls`, `browser_ttfb` and
`browser_page_load_time` refer to fields that exist on the initial `data`
object; the other entries (e.g. `browser_server_processing_time` ↦
`data.serverProcessingTime`) evaluate to `undefined`, so those metrics fail
the `if (browserMetricsMap[metric.metric])` test and fall through to the
later branches, where none of them matches — they are dropped. -/
def routeMetric (testType : String) (cap : Bool) (d : AggData)
    (metricName : String) (value : ℚ) (tg : TagWrap) (tn : String) : AggData :=
  if metricName = "browser_lcp" then { d with lcp := pushTrend d.lcp tn value }
  else if metricName = "browser_fcp" then { d with fcp := pushTrend d.fcp tn value }
  else if metricName = "browser_cls" then { d with cls := pushTrend d.cls tn value }
  else if metricName = "browser_ttfb" then { d with ttfb := pushTrend d.ttfb tn value }
  else if metricName = "browser_page_load_time" then
    { d with pageLoadTime := pushTrend d.pageLoadTime tn value }
  else if metricName = "browser_page_load_success" then
    { d with browser_page_load_success :=
        bumpPassFail d.browser_page_load_success tn (value = 1) }
  else if cap ∧ metricName ∈ mantleMetricKeys then
    { d with mantleData := fun k t =>
        if k = metricName ∧ t = tn then
          some ((d.mantleData metricName tn).getD [] ++ [value])
        else d.mantleData k t }
  else if metricName = "http_req_waiting" ∧ (testType = "PROTOCOL" ∨ testType = "API") then
    { d with protocol_ttfb := pushTrend d.protocol_ttfb tn value }
  else if metricName = "http_req_duration" ∧ (testType = "PROTOCOL" ∨ testType = "API") then
    { d with protocol_ttlb := pushTrend d.protocol_ttlb tn value }
  else if metricName = "http_req_failed" ∧ (testType = "PROTOCOL" ∨ testType = "API") then
    { d with protocol_req_success_rate :=
        bumpPassFail d.protocol_req_success_rate tn (value = 0) }
  else
    match (if testType = "BROWSER" then resourceTrendType metricName else none) with
    | some ty =>
      let item : ResourceDetail :=
        { url := strOr tg.url "N/A"
          duration := value
          size := ((tg.size.getD 0 : Int) : ℚ)
          status := intOr tg.status 200
          transaction := tn
          initiatorType := some (strOr tg.initiatorType "unknown")
          origTags := some tg }
      { d with resource_details := rdPush d.resource_details ty item }
    | none =>
      if ("protocol_resource_").data.isPrefixOf metricName.data then
        -- the regex /resource_([a-z]+)/ captures the maximal lowercase run
        -- after the first "resource_", which sits right after the prefix
        let tyChars := (metricName.data.drop ("protocol_resource_").length).takeWhile
          (fun c => c.isLower)
        if tyChars ≠ [] then
          let ty := String.mk tyChars
          match rdLookup d.resource_details ty with
          | some _ =>
            let item : ResourceDetail :=
              { url := strOr tg.url "N/A"
                duration := value
                size := ((tg.size.getD 0 : Int) : ℚ)
                status := intOr tg.status 200
                transaction := tn
                initiatorType := none
                origTags := some tg }
            { d with resource_details := rdPush d.resource_details ty item }
          | none => d
        else d
      else d

/-- The template-tracking part of the aggregation loop body (source lines
179-187): add the transaction name to the `templates` Set and bump its
`templateMetricCounts` entry, provided the name is truthy and not
`"unknown"`. -/
def noteTemplate (s : AggState) (tn : String) : AggState :=
  if tn ≠ "" ∧ tn ≠ "unknown" then
    { s with
      templates := if tn ∈ s.templates then s.templates else s.templates ++ [tn]
      templateMetricCounts := fun t =>
        if t = tn then s.templateMetricCounts tn + 1 else s.templateMetricCounts t }
  else s

/-- One iteration of the aggregation loop `lines.forEach(line => ...)` of
`processK6Output` (source lines 174-280).  A line is aggregated only when it
parsed, has `type === 'Point'`, a `data` object and `data.tags`; every other
line leaves the state unchanged. -/
def stepLine (testType : String) (cap : Bool) (s : AggState) (l : JsonLine) :
    AggState :=
  match l with
  | none => s
  | some r =>
    if r.type = "Point" then
      match r.data with
      | none => s
      | some d =>
        match d.tags with
        | none => s
        | some tg =>
          let tn := ReportHelpers.getTransactionName (some tg)
          let s1 := noteTemplate s tn
          { s1 with data := routeMetric testType cap s1.data r.metric d.value tg tn }
    else s

/-- Whether a line passes the aggregation guard
`metric.type === 'Point' && metric.data && metric.data.tags`. -/
def lineAggregable (l : JsonLine) : Bool :=
  match l with
  | none => false
  | some r =>
    match r.data with
    | none => false
    | some d => decide (r.type = "Point") && d.tags.isSome

/-- The transaction name that a line contributes to the `templates` Set:
`some tn` when the line is aggregable and its `getTransactionName` result is
truthy and different from `"unknown"`. -/
def lineTransaction (l : JsonLine) : Option String :=
  match l with
  | none => none
  | some r =>
    if r.type = "Point" then
      match r.data with
      | none => none
      | some d =>
        match d.tags with
        | none => none
        | some tg =>
          let tn := ReportHelpers.getTransactionName (some tg)
          if tn ≠ "" ∧ tn ≠ "unknown" then some tn else none
    else none

/-- Literal embedding of the `forEach` iteration of the aggregation loop: the
callback is invoked at indices 0, 1, … up to the array length.  The fuel
argument (initially the array length) only establishes termination. -/
def aggLoopFuel (testType : String) (cap : Bool) (lines : List JsonLine) :
    ℕ → ℕ → AggState → AggState
  | 0, _, s => s
  | fuel + 1, i, s =>
    if h : i < lines.length then
      aggLoopFuel testType cap lines fuel (i + 1)
        (stepLine testType cap s (lines.get ⟨i, h⟩))
    else s

/-- The aggregation pass of `processK6Output` over the line array. -/
def runAggregation (testType : String) (cap : Bool) (lines : List JsonLine) :
    AggState :=
  aggLoopFuel testType cap lines lines.length 0 initState

/-- The sequence of array indices the aggregation loop visits, in order. -/
def visitFuel (lines : List JsonLine) : ℕ → ℕ → List ℕ
  | 0, _ => []
  | fuel + 1, i =>
    if i < lines.length then i :: visitFuel lines fuel (i + 1) else []

/-- The indices visited by one run of the aggregation loop. -/
def visitTrace (lines : List JsonLine) : List ℕ :=
  visitFuel lines lines.length 0

/-- The lexicographic (code-point) order on strings used by the default
JavaScript `sort()`: it is stated on the underlying character lists, which
keeps it kernel-computable (the core `String` order is defined through
byte-position iterators that do not reduce). -/
def strLe (a b : String) : Prop :=
  a.data < b.data ∨ a.data = b.data

instance : DecidableRel strLe := fun a b => by
  unfold strLe
  infer_instance

instance : IsTotal String strLe :=
  ⟨fun a b => by
    rcases lt_trichotomy a.data b.data with h | h | h
    · exact Or.inl (Or.inl h)
    · exact Or.inl (Or.inr h)
    · exact Or.inr (Or.inl h)⟩

instance : IsTrans String strLe :=
  ⟨fun a b c hab hbc => by
    have hab' : a.data ≤ b.data := le_iff_lt_or_eq.mpr hab
    have hbc' : b.data ≤ c.data := le_iff_lt_or_eq.mpr hbc
    exact le_iff_lt_or_eq.mp (hab'.trans hbc')⟩

/-- The `uniqueTemplates` computation (source lines 283-292): the `templates`
Set as an array, filtered to templates with at least 5 metric points, then
sorted with the default (lexicographic) `sort()`. -/
def uniqueTemplatesOf (s : AggState) : List String :=
  List.insertionSort strLe
    (s.templates.filter
      (fun t => decide (s.templateMetricCounts t ≠ 0 ∧ 5 ≤ s.templateMetricCounts t)))

end ProcessK6Results

namespace ProcessK6Results

/-- The hard-coded list of seven template names in `addFallbackDataIfNeeded`
("the correct template names from the CSV file"). -/
def correctTemplateNames : List String :=
  ["taxonomyScTemplate", "listScCommerceTemplate", "structuredContentTemplate",
   "listScTemplate", "exclusiveTemplate", "homeTemplate", "robotsTemplate"]

/-- The `variationFactor` for the template at a given index:
`1 + (index * 0.1)`. -/
def vfac (index : ℕ) : ℚ :=
  1 + (index : ℚ) * 0.1

/-- A view of the sixteen per-transaction trend maps that
`addFallbackDataIfNeeded` assigns for each template. -/
structure TrendView where
  lcp : Option (List ℚ)
  fcp : Option (List ℚ)
  cls : Option (List ℚ)
  ttfb : Option (List ℚ)
  pageLoadTime : Option (List ℚ)
  serverProcessingTime : Option (List ℚ)
  networkTime : Option (List ℚ)
  domProcessingTime : Option (List ℚ)
  resourceLoadTime : Option (List ℚ)
  scriptExecutionTime : Option (List ℚ)
  scriptParsingTime : Option (List ℚ)
  jsLoadTime : Option (List ℚ)
  cssLoadTime : Option (List ℚ)
  imgLoadTime : Option (List ℚ)
  fontLoadTime : Option (List ℚ)
  otherResourceLoadTime : Option (List ℚ)
deriving Repr, DecidableEq

/-- Read the sixteen trend maps of the data object at one transaction key. -/
def trendView (d : AggData) (t : String) : TrendView :=
  { lcp := d.lcp t
    fcp := d.fcp t
    cls := d.cls t
    ttfb := d.ttfb t
    pageLoadTime := d.pageLoadTime t
    serverProcessingTime := d.serverProcessingTime t
    networkTime := d.networkTime t
    domProcessingTime := d.domProcessingTime t
    resourceLoadTime := d.resourceLoadTime t
    scriptExecutionTime := d.scriptExecutionTime t
    scriptParsingTime := d.scriptParsingTime t
    jsLoadTime := d.jsLoadTime t
    cssLoadTime := d.cssLoadTime t
    imgLoadTime := d.imgLoadTime t
    fontLoadTime := d.fontLoadTime t
    otherResourceLoadTime := d.otherResourceLoadTime t }

/-- The hard-coded synthetic arrays `addFallbackDataIfNeeded` assigns for one
template, given its variation factor (source lines 420-468; the `realXxx`
constants 1513.79, 365.79, 1000, 228.51, 138.58 and 0 are the literals from
the source). -/
def fallbackVals (vf : ℚ) : TrendView :=
  { lcp := some [2500 * vf, 2300 * vf, 2700 * vf]
    fcp := some [1200 * vf, 1100 * vf, 1300 * vf]
    cls := some [0.1 * vf, 0.08 * vf, 0.12 * vf]
    ttfb := some [500 * vf, 450 * vf, 550 * vf]
    pageLoadTime := some [1513.79 * vf, 1513.79 * 0.9 * vf, 1513.79 * 1.1 * vf]
    serverProcessingTime := some [365.79 * vf, 365.79 * 0.9 * vf, 365.79 * 1.1 * vf]
    networkTime := some [1000 * vf, 1000 * 0.9 * vf, 1000 * 1.1 * vf]
    domProcessingTime := some [228.51 * vf, 228.51 * 0.9 * vf, 228.51 * 1.1 * vf]
    resourceLoadTime := some [800 * vf, 750 * vf, 850 * vf]
    scriptExecutionTime := some [138.58 * vf, 138.58 * 0.9 * vf, 138.58 * 1.1 * vf]
    scriptParsingTime := some [0 * vf, 0 * 0.9 * vf, 0 * 1.1 * vf]
    jsLoadTime := some [600 * vf, 550 * vf, 650 * vf]
    cssLoadTime := some [450 * vf, 400 * vf, 500 * vf]
    imgLoadTime := some [700 * vf, 650 * vf, 750 * vf]
    fontLoadTime := some [200 * vf, 180 * vf, 220 * vf]
    otherResourceLoadTime := some [300 * vf, 270 * vf, 330 * vf] }

/-- The body of the per-template `forEach` in `addFallbackDataIfNeeded`:
unconditionally assign the sixteen synthetic arrays at key `t`.  (The
preceding `if (!data.xxx) data.xxx = {}` lines only create missing container
objects and do not affect the subsequent unconditional assignments.) -/
def applyTemplateFallback (d : AggData) (t : String) (vf : ℚ) : AggData :=
  let fv := fallbackVals vf
  { d with
    lcp := fun k => if k = t then fv.lcp else d.lcp k
    fcp := fun k => if k = t then fv.fcp else d.fcp k
    cls := fun k => if k = t then fv.cls else d.cls k
    ttfb := fun k => if k = t then fv.ttfb else d.ttfb k
    pageLoadTime := fun k => if k = t then fv.pageLoadTime else d.pageLoadTime k
    serverProcessingTime :=
      fun k => if k = t then fv.serverProcessingTime else d.serverProcessingTime k
    networkTime := fun k => if k = t then fv.networkTime else d.networkTime k
    domProcessingTime :=
      fun k => if k = t then fv.domProcessingTime else d.domProcessingTime k
    resourceLoadTime :=
      fun k => if k = t then fv.resourceLoadTime else d.resourceLoadTime k
    scriptExecutionTime :=
      fun k => if k = t then fv.scriptExecutionTime else d.scriptExecutionTime k
    scriptParsingTime :=
      fun k => if k = t then fv.scriptParsingTime else d.scriptParsingTime k
    jsLoadTime := fun k => if k = t then fv.jsLoadTime else d.jsLoadTime k
    cssLoadTime := fun k => if k = t then fv.cssLoadTime else d.cssLoadTime k
    imgLoadTime := fun k => if k = t then fv.imgLoadTime else d.imgLoadTime k
    fontLoadTime := fun k => if k = t then fv.fontLoadTime else d.fontLoadTime k
    otherResourceLoadTime :=
      fun k => if k = t then fv.otherResourceLoadTime else d.otherResourceLoadTime k }

/-- The indexed `templates.forEach((template, index) => ...)` of
`addFallbackDataIfNeeded`, starting at a given index. -/
def overwriteFrom : AggData → ℕ → List String → AggData
  | d, _, [] => d
  | d, i, t :: rest => overwriteFrom (applyTemplateFallback d t (vfac i)) (i + 1) rest

/-- The five resource types and URL prefixes of the resource fallback block. -/
def resourceTypesFB : List String :=
  ["js", "css", "img", "font", "other"]

/-- The `urlPrefixes` table of the resource fallback block. -/
def urlPrefixFor (ty : String) : String :=
  if ty = "js" then "https://example.com/static/js/main."
  else if ty = "css" then "https://example.com/static/css/styles."
  else if ty = "img" then "https://example.com/static/images/hero."
  else if ty = "font" then "https://example.com/static/fonts/opensans."
  else if ty = "other" then "https://example.com/static/misc/data."
  else ""

/-- The guard `if (!rd[type] || rd[type].length === 0) rd[type] = []` of the
resource fallback block: create the key if absent, reset an empty entry. -/
def fbEnsureKey (rd : List (String × List ResourceDetail)) (ty : String) :
    List (String × List ResourceDetail) :=
  match rdLookup rd ty with
  | none => rd ++ [(ty, [])]
  | some l =>
    if l.length = 0 then
      rd.map (fun p => if p.1 = ty then (p.1, ([] : List ResourceDetail)) else p)
    else rd

/-- One synthetic resource entry of the fallback block; `r1` and `r2` model
the two `Math.random()` calls (duration first, then size). -/
def fbResourceItem (ty : String) (i : ℕ) (r1 r2 : ℚ) (template : String) :
    ResourceDetail :=
  { url := urlPrefixFor ty ++ toString i ++ "." ++ ty
    duration := 200 + (i : ℚ) * 50 + r1 * 100
    size := 10000 + (i : ℚ) * 5000 + r2 * 5000
    status := 200
    transaction := template
    initiatorType := some ty
    origTags := none }

/-- The resource fallback block of `addFallbackDataIfNeeded` (source lines
471-505): when no resource type holds any entry, push three synthetic
resources per type per template.  `rand` is the `Math.random` stream, indexed
by call order. -/
def resourceFallback (d : AggData) (templates : List String) (rand : ℕ → ℚ) :
    AggData :=
  let hasResourceData := d.resource_details.any (fun p => 0 < p.2.length)
  if hasResourceData then d
  else
    let perType := fun (acc : List (String × List ResourceDetail) × ℕ)
        (template : String) (ty : String) =>
      let rd0 := fbEnsureKey acc.1 ty
      (List.range 3).foldl
        (fun acc3 i =>
          (rdPush acc3.1 ty (fbResourceItem ty i (rand acc3.2) (rand (acc3.2 + 1)) template),
           acc3.2 + 2))
        (rd0, acc.2)
    let final := templates.foldl
      (fun acc template => resourceTypesFB.foldl (fun a ty => perType a template ty) acc)
      (d.resource_details, 0)
    { d with resource_details := final.1 }

/-- Embedding of `addFallbackDataIfNeeded(data, templates)` (source lines
394-506).  It first replaces the discovered template list by
`correctTemplateNames` when the two are disjoint, then unconditionally
overwrites the sixteen trend maps for every template in the resulting list,
then adds synthetic resource details when none were collected.  The source
mutates `data` and `templates` in place; the embedding returns the new pair. -/
def addFallbackDataIfNeeded (d : AggData) (templates : List String)
    (rand : ℕ → ℚ) : AggData × List String :=
  let templates' :=
    if templates.any (fun t => correctTemplateNames.contains t) then templates
    else correctTemplateNames
  let d1 := overwriteFrom d 0 templates'
  let d2 := resourceFallback d1 templates' rand
  (d2, templates')

end ProcessK6Results

/-- Replace the first occurrence of `pat` in `s` by `repl`; the string is
returned unchanged when `pat` does not occur.  This is JavaScript
`String.prototype.replace` with a string pattern. -/
def replaceFirstList (s pat repl : List Char) : List Char :=
  match s with
  | [] => []
  | c :: rest =>
    if pat.isPrefixOf s then repl ++ s.drop pat.length
    else c :: replaceFirstList rest pat repl

/-- String version of `replaceFirstList`. -/
def replaceFirstStr (s pat repl : String) : String :=
  String.mk (replaceFirstList s.data pat.data repl.data)

namespace ProcessK6Results

/-- The report file name: `config.inputFile.replace('.json', '_report.html')`
(source line 381). -/
def reportFilename (inputFile : String) : String :=
  replaceFirstStr inputFile ".json" "_report.html"

/-- The test `t.toLowerCase().endsWith('_nonhtml')` used to split the
transaction list for PROTOCOL/API reports (stated on character lists). -/
def endsWithNonHtml (t : String) : Bool :=
  ("_nonhtml").data.isSuffixOf (t.data.map Char.toLower)

/-- The observable outcome of one `processK6Output` run, as far as the claims
are concerned: the report file path, the transaction lists handed to the
report generators (`browserTemplates` for `generateBrowserReport`,
`htmlTransactions`/`nonHtmlTransactions` for the protocol/API generators;
lists not handed over are empty), and the final data object. -/
structure ReportOutput where
  reportFile : String
  browserTemplates : List String
  htmlTransactions : List String
  nonHtmlTransactions : List String
  data : AggData

/-- Embedding of the `processK6Output` pipeline for a resolved test type.
`fileContent` is `none` when `fs.readFileSync` throws, in which case the
function logs and returns without writing any report (modelled as `none`).
The test-type resolution from the file name, environment and argv (source
lines 101-141) is abstracted into the `testType` parameter, and
`captureMantleMetrics` into `cap`.  Report content generation (pure HTML
templating) and the PROTOCOL/API resource join of source lines 311-360
(which only augments `data.resource_details`) are not modelled; no claim
refers to them. -/
def processK6Output (testType : String) (cap : Bool) (inputFile : String)
    (fileContent : Option (List JsonLine)) (rand : ℕ → ℚ) :
    Option ReportOutput :=
  match fileContent with
  | none => none
  | some lines =>
    let st := runAggregation testType cap lines
    let uniqueTemplates := uniqueTemplatesOf st
    if testType = "BROWSER" then
      let fb := addFallbackDataIfNeeded st.data uniqueTemplates rand
      some { reportFile := reportFilename inputFile
             browserTemplates := fb.2
             htmlTransactions := []
             nonHtmlTransactions := []
             data := fb.1 }
    else if testType = "PROTOCOL" ∨ testType = "API" then
      let html := uniqueTemplates.filter (fun t => !endsWithNonHtml t)
      let nonHtml := uniqueTemplates.filter (fun t => endsWithNonHtml t)
      if testType = "API" then
        some { reportFile := reportFilename inputFile
               browserTemplates := []
               htmlTransactions := html
               nonHtmlTransactions := []
               data := st.data }
      else
        some { reportFile := reportFilename inputFile
               browserTemplates := []
               htmlTransactions := html
               nonHtmlTransactions := nonHtml
               data := st.data }
    else
      some { reportFile := reportFilename inputFile
             browserTemplates := []
             htmlTransactions := []
             nonHtmlTransactions := []
             data := st.data }

end ProcessK6Results

namespace RunK6Tests

/-- Shell variable state of run_k6_tests.sh.  Unset POSIX shell variables and
empty ones are indistinguishable under `[ -z ... ]`, so both are modelled as
`""`.  The defaults are the assignments at the top of the script. -/
structure ShellConfig where
  SCRIPT_TO_RUN : String := ""
  ENVIRONMENT : String := ""
  TEST_TYPE : String := ""
  RAMPING_STAGES : String := ""
  SCENARIO_TYPE : String := "smoke"
  HEADLESS_BROWSER : String := "false"
  BASE_URL : String := ""
  AUT : String := "allrecipes"
  TIME_UNIT : String := "1s"
  SELECTION_MODE : String := "global_sequential"
  CAPTURE_MANTLE_METRICS_ENABLED : String := "true"
deriving Repr, DecidableEq

/-- The default shell state before argument processing. -/
def defaultConfig : ShellConfig := {}

/-- Whether `arg` starts with the given `--flag=` marker. -/
def hasFlagEq (arg marker : String) : Bool :=
  marker.data.isPrefixOf arg.data

/-- The value part of a `--flag=value` argument (`${1#*=}` for these
patterns: everything after the first `=`; our markers end at the first `=`). -/
def flagValue (arg marker : String) : String :=
  String.mk (arg.data.drop marker.data.length)

/-- The check of `validate_test_type` and `validate_scenario_type`:
`echo "$valid" | grep -q "$1"`, i.e. (for the literal values occurring here)
a substring test of the argument against the comma-separated list. -/
def grepSubstr (pat text : String) : Bool :=
  decide (List.IsInfix pat.data text.data)

/-- The comma-separated list of valid test types. -/
def validTestTypes : String := "BROWSER,API,PROTOCOL,MULTI"

/-- The comma-separated list of valid scenario types. -/
def validScenarios : String :=
  "smoke,spiketest,loadtest,stresstest,endurancetest,custom-tps,custom-vus"

/-- An argument matching one of the eleven recognised `--flag=value` cases of
the `case` statement; anything else hits the `*)` branch and exits. -/
def knownFlag (arg : String) : Bool :=
  hasFlagEq arg "--script=" || hasFlagEq arg "--environment=" ||
  hasFlagEq arg "--scenario=" || hasFlagEq arg "--test-type=" ||
  hasFlagEq arg "--headless=" || hasFlagEq arg "--ramping-stages=" ||
  hasFlagEq arg "--base-url=" || hasFlagEq arg "--aut=" ||
  hasFlagEq arg "--time-unit=" || hasFlagEq arg "--selection-mode=" ||
  hasFlagEq arg "--capture-mantle-metrics="

/-- Assignment `SCRIPT_TO_RUN="${1#*=}"`. -/
def withScript (c : ShellConfig) (v : String) : ShellConfig :=
  { c with SCRIPT_TO_RUN := v }

/-- Assignment `ENVIRONMENT="${1#*=}"`. -/
def withEnvironment (c : ShellConfig) (v : String) : ShellConfig :=
  { c with ENVIRONMENT := v }

/-- Assignment `SCENARIO_TYPE="${1#*=}"`. -/
def withScenario (c : ShellConfig) (v : String) : ShellConfig :=
  { c with SCENARIO_TYPE := v }

/-- Assignment `TEST_TYPE="${1#*=}"`. -/
def withTestType (c : ShellConfig) (v : String) : ShellConfig :=
  { c with TEST_TYPE := v }

/-- Assignment `HEADLESS_BROWSER="${1#*=}"`. -/
def withHeadless (c : ShellConfig) (v : String) : ShellConfig :=
  { c with HEADLESS_BROWSER := v }

/-- Assignment `RAMPING_STAGES="${1#*=}"`. -/
def withRampingStages (c : ShellConfig) (v : String) : ShellConfig :=
  { c with RAMPING_STAGES := v }

/-- Assignment `BASE_URL="${1#*=}"`. -/
def withBaseUrl (c : ShellConfig) (v : String) : ShellConfig :=
  { c with BASE_URL := v }

/-- Assignment `AUT="${1#*=}"`. -/
def withAut (c : ShellConfig) (v : String) : ShellConfig :=
  { c with AUT := v }

/-- Assignment `TIME_UNIT="${1#*=}"`. -/
def withTimeUnit (c : ShellConfig) (v : String) : ShellConfig :=
  { c with TIME_UNIT := v }

/-- Assignment `SELECTION_MODE="${1#*=}"`. -/
def withSelectionMode (c : ShellConfig) (v : String) : ShellConfig :=
  { c with SELECTION_MODE := v }

/-- Assignment `CAPTURE_MANTLE_METRICS_ENABLED="${1#*=}"`. -/
def withCaptureMantle (c : ShellConfig) (v : String) : ShellConfig :=
  { c with CAPTURE_MANTLE_METRICS_ENABLED := v }

/-- The outcome of one `case "$1" in ... esac` iteration: either the shell
variable state after the matching branch (and the loop continues with
`shift`), or `exit 1` with an error message. -/
inductive ArgStep where
  | setCfg (c : ShellConfig)
  | fail (e : String)
deriving Repr, DecidableEq

/-- One iteration of the `case "$1" in ... esac` statement of the argument
loop (source lines 63-104).  The eleven recognised patterns are
`--flag=value` prefixes; the validations that exit (`validate_environment`,
`validate_test_type`, `validate_aut`) are inlined at their call sites; any
other argument hits `*)` and exits with "Unknown parameter". -/
def stepArg (a : String) (c : ShellConfig) : ArgStep :=
  if hasFlagEq a "--script=" then .setCfg (withScript c (flagValue a "--script="))
  else if hasFlagEq a "--environment=" then
    if flagValue a "--environment=" = "" then .fail "Invalid environment value"
    else .setCfg (withEnvironment c (flagValue a "--environment="))
  else if hasFlagEq a "--scenario=" then
    .setCfg (withScenario c (flagValue a "--scenario="))
  else if hasFlagEq a "--test-type=" then
    if grepSubstr (flagValue a "--test-type=") validTestTypes then
      .setCfg (withTestType c (flagValue a "--test-type="))
    else .fail "Invalid test type"
  else if hasFlagEq a "--headless=" then
    .setCfg (withHeadless c (flagValue a "--headless="))
  else if hasFlagEq a "--ramping-stages=" then
    .setCfg (withRampingStages c (flagValue a "--ramping-stages="))
  else if hasFlagEq a "--base-url=" then
    .setCfg (withBaseUrl c (flagValue a "--base-url="))
  else if hasFlagEq a "--aut=" then
    if flagValue a "--aut=" = "" then .fail "Invalid AUT value"
    else .setCfg (withAut c (flagValue a "--aut="))
  else if hasFlagEq a "--time-unit=" then
    .setCfg (withTimeUnit c (flagValue a "--time-unit="))
  else if hasFlagEq a "--selection-mode=" then
    .setCfg (withSelectionMode c (flagValue a "--selection-mode="))
  else if hasFlagEq a "--capture-mantle-metrics=" then
    .setCfg (withCaptureMantle c (flagValue a "--capture-mantle-metrics="))
  else .fail "Unknown parameter"

/-- The argument-processing `while [ $# -gt 0 ]` loop (source lines 62-106):
run `stepArg` on each argument in turn; `Except.error` models `exit 1`. -/
def processArgs : List String → ShellConfig → Except String ShellConfig
  | [], c => .ok c
  | a :: rest, c =>
    match stepArg a c with
    | .setCfg c' => processArgs rest c'
    | .fail e => .error e

/-- The script up to (and including) the point where `k6 run` is invoked:
argument processing, the four required-parameter checks (source lines
108-126), and the re-validation of test type and scenario type (source lines
144-145).  An `ok` result means k6 is run with this configuration. -/
def runScript (args : List String) : Except String ShellConfig :=
  match processArgs args defaultConfig with
  | .error e => .error e
  | .ok c =>
    if c.SCRIPT_TO_RUN = "" then .error "--script parameter is required"
    else if c.ENVIRONMENT = "" then .error "--environment parameter is required"
    else if c.TEST_TYPE = "" then .error "--test-type parameter is required"
    else if c.BASE_URL = "" then .error "--base-url parameter is required"
    else if !grepSubstr c.TEST_TYPE validTestTypes then .error "Invalid test type"
    else if !grepSubstr c.SCENARIO_TYPE validScenarios then .error "Invalid scenario type"
    else .ok c

/-- The results-file prefix `results/${TEST_TYPE}_${AUT}_${SCENARIO_TYPE}`
(source line 155). -/
def resultsPrefixPath (testType aut scenario : String) : String :=
  "results/" ++ testType ++ "_" ++ aut ++ "_" ++ scenario

/-- The metric output path `${RESULTS_PREFIX}.json` passed to
`k6 run --out json=...` and then to the results processor (source lines
156, 168, 177). -/
def resultsJsonPath (testType aut scenario : String) : String :=
  resultsPrefixPath testType aut scenario ++ ".json"

/-- Whether the script reaches the `k6 run` invocation (`ok`) or exits with
an error first. -/
def shellOk : Except String ShellConfig → Bool
  | .ok _ => true
  | .error _ => false

/-- A full invocation using each of the eleven recognised flags once. -/
def exampleArgs : List String :=
  ["--script=browser_test.js", "--environment=prod", "--test-type=BROWSER",
   "--scenario=loadtest", "--headless=true", "--base-url=https://example.com",
   "--aut=allrecipes", "--time-unit=1s", "--ramping-stages=1m:10",
   "--selection-mode=global_sequential", "--capture-mantle-metrics=true"]

end RunK6Tests

namespace ProcessK6Results

/-- The effect of one aggregation step on the `templates` Set and the
`templateMetricCounts` object alone, as a function of the line's contributed
transaction name (`lineTransaction`); used to relate the loop to the
discovered-transaction multiset. -/
def noteOpt (s : AggState) : Option String → AggState
  | none => s
  | some tn =>
    { s with
      templates := if tn ∈ s.templates then s.templates else s.templates ++ [tn]
      templateMetricCounts := fun t =>
        if t = tn then s.templateMetricCounts tn + 1 else s.templateMetricCounts t }

end ProcessK6Results

/-- A well-formed metric point tagged with transaction `"zzz"`. -/
def zzzPointLine : JsonLine :=
  some { type := "Point", metric := "some_metric",
         data := some { tags := some { tags := none, transaction := some "zzz",
                                       url := none, size := none, status := none,
                                       initiatorType := none },
                        value := 1, time := none } }

/-- Five copies of `zzzPointLine`: a transaction with exactly 5 metric
points, discovered by the aggregation but foreign to
`correctTemplateNames`. -/
def zzzPointLines : List JsonLine :=
  List.replicate 5 zzzPointLine

section StatsLemmas

lemma pctIdx_eq (num den c : ℕ) : pctIdx num den c = num * c / den := by
  unfold pctIdx
  have h1 : ((num : ℚ) / (den : ℚ)) * (c : ℚ) = ((num * c : ℕ) : ℚ) / ((den : ℕ) : ℚ) := by
    push_cast
    ring
  rw [h1, Rat.floor_natCast_div_natCast, ← Int.natCast_div, Int.toNat_natCast]

lemma jsSortAsc_sorted (v : List ℚ) : List.Sorted (· ≤ ·) (jsSortAsc v) :=
  List.sorted_insertionSort _ v

lemma jsSortAsc_perm (v : List ℚ) : (jsSortAsc v).Perm v :=
  List.perm_insertionSort _ v

lemma jsSortAsc_eq_of {v w : List ℚ} (hw : List.Sorted (· ≤ ·) w) (hp : v.Perm w) :
    jsSortAsc v = w :=
  List.eq_of_perm_of_sorted ((jsSortAsc_perm v).trans hp) (jsSortAsc_sorted v) hw

lemma jsSortAsc_length (v : List ℚ) : (jsSortAsc v).length = v.length :=
  (jsSortAsc_perm v).length_eq

lemma jsSortAsc_sum (v : List ℚ) : (jsSortAsc v).foldl (· + ·) 0 = v.sum := by
  rw [← List.sum_eq_foldl]
  exact (jsSortAsc_perm v).sum_eq

lemma sorted_getD_le {w : List ℚ} (hw : List.Sorted (· ≤ ·) w) {i j : ℕ}
    (hij : i ≤ j) (hj : j < w.length) : w.getD i 0 ≤ w.getD j 0 := by
  rcases lt_or_eq_of_le hij with h | h
  · have hi : i < w.length := lt_trans h hj
    rw [List.getD_eq_getElem _ _ hi, List.getD_eq_getElem _ _ hj]
    have := List.pairwise_iff_get.mp hw ⟨i, hi⟩ ⟨j, hj⟩ h
    simpa [List.get_eq_getElem] using this
  · rw [h]

lemma sorted_headD_le {w : List ℚ} (hw : List.Sorted (· ≤ ·) w) {x : ℚ}
    (hx : x ∈ w) : w.getD 0 0 ≤ x := by
  obtain ⟨⟨i, hi⟩, rfl⟩ := List.mem_iff_get.mp hx
  have : w.get ⟨i, hi⟩ = w.getD i 0 := by
    rw [List.getD_eq_getElem _ _ hi, List.get_eq_getElem]
  rw [this]
  exact sorted_getD_le hw (Nat.zero_le i) hi

lemma sorted_le_lastD {w : List ℚ} (hw : List.Sorted (· ≤ ·) w) {x : ℚ}
    (hx : x ∈ w) : x ≤ w.getD (w.length - 1) 0 := by
  obtain ⟨⟨i, hi⟩, rfl⟩ := List.mem_iff_get.mp hx
  have hgd : w.get ⟨i, hi⟩ = w.getD i 0 := by
    rw [List.getD_eq_getElem _ _ hi, List.get_eq_getElem]
  rw [hgd]
  exact sorted_getD_le hw (by omega) (by omega)

lemma getD_mem_of_lt {w : List ℚ} {i : ℕ} (h : i < w.length) : w.getD i 0 ∈ w := by
  rw [List.getD_eq_getElem _ _ h]
  exact List.getElem_mem h

lemma helperStats_spec {v : List ℚ} (hv : v ≠ []) :
    ReportHelpers.calculateStats (some v) =
      { min := (jsSortAsc v).getD 0 0
        max := (jsSortAsc v).getD (v.length - 1) 0
        avg := v.sum / (v.length : ℚ)
        median :=
          if v.length % 2 = 1 then (jsSortAsc v).getD (v.length / 2) 0
          else ((jsSortAsc v).getD (v.length / 2 - 1) 0 +
            (jsSortAsc v).getD (v.length / 2) 0) / 2
        p90 := (jsSortAsc v).getD (9 * v.length / 10) 0
        p95 := (jsSortAsc v).getD (95 * v.length / 100) 0
        p99 := (jsSortAsc v).getD (99 * v.length / 100) 0
        count := v.length } := by
  have hne : ¬ v.length = 0 := by
    simpa [List.length_eq_zero] using hv
  simp only [ReportHelpers.calculateStats, if_neg hne, jsSortAsc_length, jsSortAsc_sum,
    pctIdx_eq]

lemma protoStats_spec {v : List ℚ} (hv : v ≠ []) :
    GenerateProtocolReport.calculateStats (some v) =
      { min := (jsSortAsc v).getD 0 0
        max := (jsSortAsc v).getD (v.length - 1) 0
        avg := v.sum / (v.length : ℚ)
        med := (jsSortAsc v).getD ((v.length - 1) / 2) 0
        p90 := (jsSortAsc v).getD (90 * (v.length - 1) / 100) 0
        p95 := (jsSortAsc v).getD (95 * (v.length - 1) / 100) 0
        p99 := (jsSortAsc v).getD (99 * (v.length - 1) / 100) 0
        count := v.length } := by
  have hne : ¬ v.length = 0 := by
    simpa [List.length_eq_zero] using hv
  simp only [GenerateProtocolReport.calculateStats, if_neg hne, jsSortAsc_length,
    jsSortAsc_sum, pctIdx_eq]

end StatsLemmas

/-- Claim C2: for every non-empty numeric array `v`, `calculateStats` in
report-helpers returns `count` = length of `v`, `min`/`max` = least/greatest
element of `v`, `avg` = sum of `v` divided by `count`, `median` = the middle
element of the ascending-sorted copy (mean of the two middle elements when
`count` is even), and `p90`, `p95`, `p99` = the elements of the
ascending-sorted copy at indices `⌊0.9·count⌋`, `⌊0.95·count⌋`,
`⌊0.99·count⌋`.  The sorted copy is characterised abstractly as any sorted
permutation `w` of `v`. -/
theorem claim_C2_calculateStats (v w : List ℚ) (hv : v ≠ [])
    (hw : List.Sorted (· ≤ ·) w) (hp : v.Perm w) :
    (ReportHelpers.calculateStats (some v)).count = v.length ∧
    (ReportHelpers.calculateStats (some v)).min ∈ v ∧
    (∀ x ∈ v, (ReportHelpers.calculateStats (some v)).min ≤ x) ∧
    (ReportHelpers.calculateStats (some v)).max ∈ v ∧
    (∀ x ∈ v, x ≤ (ReportHelpers.calculateStats (some v)).max) ∧
    (ReportHelpers.calculateStats (some v)).avg = v.sum / (v.length : ℚ) ∧
    (v.length % 2 = 1 →
      (ReportHelpers.calculateStats (some v)).median = w.getD (v.length / 2) 0) ∧
    (v.length % 2 = 0 →
      (ReportHelpers.calculateStats (some v)).median =
        (w.getD (v.length / 2 - 1) 0 + w.getD (v.length / 2) 0) / 2) ∧
    (ReportHelpers.calculateStats (some v)).p90 = w.getD (9 * v.length / 10) 0 ∧
    (ReportHelpers.calculateStats (some v)).p95 = w.getD (95 * v.length / 100) 0 ∧
    (ReportHelpers.calculateStats (some v)).p99 = w.getD (99 * v.length / 100) 0 := by
  have hsw : jsSortAsc v = w := jsSortAsc_eq_of hw hp
  have hlenw : w.length = v.length := hp.length_eq.symm
  have hpos : 0 < v.length := List.length_pos.mpr hv
  have hmem : ∀ y, y ∈ w ↔ y ∈ v := fun y => hp.symm.mem_iff
  rw [helperStats_spec hv, hsw]
  refine ⟨rfl, ?_, ?_, ?_, ?_, rfl, ?_, ?_, rfl, rfl, rfl⟩
  · exact (hmem _).mp (getD_mem_of_lt (by omega))
  · intro x hx
    exact sorted_headD_le hw ((hmem x).mpr hx)
  · exact (hmem _).mp (getD_mem_of_lt (by omega))
  · intro x hx
    have := sorted_le_lastD hw ((hmem x).mpr hx)
    rwa [hlenw] at this
  · intro hodd
    simp [hodd]
  · intro heven
    have : ¬ v.length % 2 = 1 := by omega
    simp [this]

/-- Witness for C2 at the concrete input `[3, 1, 2]` with sorted copy
`[1, 2, 3]`. -/
theorem claim_C2_calculateStats_witness :
    (ReportHelpers.calculateStats (some [3, 1, 2])).count = 3 ∧
    (ReportHelpers.calculateStats (some [3, 1, 2])).p90 =
      ([1, 2, 3] : List ℚ).getD (9 * 3 / 10) 0 := by
  have h := claim_C2_calculateStats [3, 1, 2] [1, 2, 3] (by decide)
    (by decide) (by decide)
  exact ⟨h.1, h.2.2.2.2.2.2.2.2.1⟩

/-- Claim C10: for every non-empty numeric array, the statistics returned by
`calculateStats` satisfy min ≤ median ≤ p90 ≤ p95 ≤ p99 ≤ max, for both the
report-helpers implementation and the generate-protocol-report
implementation.  (Both embeddings are pure: each sorts a copy of the input
via `jsSortAsc` and the argument list is untouched, mirroring
`values.slice().sort(...)` in the source.) -/
theorem claim_C10_statsOrder (v : List ℚ) (hv : v ≠ []) :
    ((ReportHelpers.calculateStats (some v)).min ≤
        (ReportHelpers.calculateStats (some v)).median ∧
      (ReportHelpers.calculateStats (some v)).median ≤
        (ReportHelpers.calculateStats (some v)).p90 ∧
      (ReportHelpers.calculateStats (some v)).p90 ≤
        (ReportHelpers.calculateStats (some v)).p95 ∧
      (ReportHelpers.calculateStats (some v)).p95 ≤
        (ReportHelpers.calculateStats (some v)).p99 ∧
      (ReportHelpers.calculateStats (some v)).p99 ≤
        (ReportHelpers.calculateStats (some v)).max) ∧
    ((GenerateProtocolReport.calculateStats (some v)).min ≤
        (GenerateProtocolReport.calculateStats (some v)).med ∧
      (GenerateProtocolReport.calculateStats (some v)).med ≤
        (GenerateProtocolReport.calculateStats (some v)).p90 ∧
      (GenerateProtocolReport.calculateStats (some v)).p90 ≤
        (GenerateProtocolReport.calculateStats (some v)).p95 ∧
      (GenerateProtocolReport.calculateStats (some v)).p95 ≤
        (GenerateProtocolReport.calculateStats (some v)).p99 ∧
      (GenerateProtocolReport.calculateStats (some v)).p99 ≤
        (GenerateProtocolReport.calculateStats (some v)).max) := by
  have hpos : 0 < v.length := List.length_pos.mpr hv
  have hw : List.Sorted (· ≤ ·) (jsSortAsc v) := jsSortAsc_sorted v
  have hlen : (jsSortAsc v).length = v.length := jsSortAsc_length v
  have hle : ∀ i j : ℕ, i ≤ j → j < v.length →
      (jsSortAsc v).getD i 0 ≤ (jsSortAsc v).getD j 0 := by
    intro i j hij hj
    exact sorted_getD_le hw hij (by omega)
  rw [helperStats_spec hv, protoStats_spec hv]
  set c := v.length with hc
  refine ⟨⟨?_, ?_, ?_, ?_, ?_⟩, ⟨?_, ?_, ?_, ?_, ?_⟩⟩
  · by_cases hodd : c % 2 = 1
    · simpa [hodd] using hle 0 (c / 2) (by omega) (by omega)
    · have h1 := hle 0 (c / 2 - 1) (by omega) (by omega)
      have h2 := hle 0 (c / 2) (by omega) (by omega)
      simp only [if_neg hodd]
      linarith
  · by_cases hodd : c % 2 = 1
    · simpa [hodd] using hle (c / 2) (9 * c / 10) (by omega) (by omega)
    · have h1 := hle (c / 2 - 1) (c / 2) (by omega) (by omega)
      have h2 := hle (c / 2) (9 * c / 10) (by omega) (by omega)
      simp only [if_neg hodd]
      linarith
  · exact hle (9 * c / 10) (95 * c / 100) (by omega) (by omega)
  · exact hle (95 * c / 100) (99 * c / 100) (by omega) (by omega)
  · exact hle (99 * c / 100) (c - 1) (by omega) (by omega)
  · exact hle 0 ((c - 1) / 2) (by omega) (by omega)
  · exact hle ((c - 1) / 2) (90 * (c - 1) / 100) (by omega) (by omega)
  · exact hle (90 * (c - 1) / 100) (95 * (c - 1) / 100) (by omega) (by omega)
  · exact hle (95 * (c - 1) / 100) (99 * (c - 1) / 100) (by omega) (by omega)
  · exact hle (99 * (c - 1) / 100) (c - 1) (by omega) (by omega)

/-- Witness for C10 at the concrete input `[5, 1, 4]`. -/
theorem claim_C10_statsOrder_witness :
    (ReportHelpers.calculateStats (some [5, 1, 4])).min ≤
      (ReportHelpers.calculateStats (some [5, 1, 4])).median ∧
    (GenerateProtocolReport.calculateStats (some [5, 1, 4])).p99 ≤
      (GenerateProtocolReport.calculateStats (some [5, 1, 4])).max := by
  have h := claim_C10_statsOrder [5, 1, 4] (by decide)
  exact ⟨h.1.1, h.2.2.2.2.2⟩

/-- Claim C6: on malformed or missing input the utilities return defaults
instead of throwing: `calculateStats` returns the all-zero stats object when
its argument is missing or an empty array, and `processK6Output` returns
normally, producing no report, when the input file cannot be read. -/
theorem claim_C6_defaults :
    ReportHelpers.calculateStats none =
      { min := 0, max := 0, avg := 0, median := 0, p90 := 0, p95 := 0, p99 := 0,
        count := 0 } ∧
    ReportHelpers.calculateStats (some []) =
      { min := 0, max := 0, avg := 0, median := 0, p90 := 0, p95 := 0, p99 := 0,
        count := 0 } ∧
    ∀ (testType : String) (cap : Bool) (inputFile : String) (rand : ℕ → ℚ),
      ProcessK6Results.processK6Output testType cap inputFile none rand = none := by
  exact ⟨rfl, rfl, fun _ _ _ _ => rfl⟩

section ReplaceFirstLemmas

lemma replaceFirstList_append {p : Char} (pt pre repl : List Char)
    (hpre : ∀ c ∈ pre, c ≠ p) :
    replaceFirstList (pre ++ p :: pt) (p :: pt) repl = pre ++ repl := by
  induction pre with
  | nil =>
    have hpref : ((p :: pt).isPrefixOf (p :: pt)) = true := by
      rw [List.isPrefixOf_iff_prefix]
    simp only [List.nil_append]
    simp [replaceFirstList, hpref]
  | cons c pre' ih =>
    have hc : c ≠ p := hpre c (List.mem_cons_self c pre')
    have hnp : ((p :: pt).isPrefixOf (c :: (pre' ++ p :: pt))) = false := by
      rw [List.isPrefixOf_cons₂]
      simp [Ne.symm hc]
    simp only [List.cons_append]
    simp only [replaceFirstList, hnp, Bool.false_eq_true, if_false]
    rw [ih (fun d hd => hpre d (List.mem_cons_of_mem c hd))]

lemma reportFilename_append_json {P : String} (hP : ∀ c ∈ P.data, c ≠ '.') :
    ProcessK6Results.reportFilename (P ++ ".json") = P ++ "_report.html" := by
  show String.mk
      (replaceFirstList (P ++ ".json").data (".json").data ("_report.html").data) =
    P ++ "_report.html"
  rw [String.data_append]
  rw [show (".json").data = '.' :: ['j', 's', 'o', 'n'] from rfl]
  rw [replaceFirstList_append _ _ _ hP]
  rfl

lemma processK6Output_reportFile (tt : String) (cap : Bool) (file : String)
    (content : List JsonLine) (rand : ℕ → ℚ) :
    (ProcessK6Results.processK6Output tt cap file (some content) rand).map
      ProcessK6Results.ReportOutput.reportFile =
    some (ProcessK6Results.reportFilename file) := by
  simp only [ProcessK6Results.processK6Output]
  split_ifs <;> rfl

end ReplaceFirstLemmas

/-- Claim C3: a run of run_k6_tests.sh with test type T, AUT A and scenario S
writes the k6 metric output to `results/T_A_S.json`
(`RESULTS_PREFIX = results/${TEST_TYPE}_${AUT}_${SCENARIO_TYPE}` and
`RESULTS_JSON = ${RESULTS_PREFIX}.json`), and `processK6Output` writes the
HTML report to the input path with its `.json` suffix replaced by
`_report.html`, i.e. to `results/T_A_S_report.html`.  The hypothesis that the
three name components contain no `.` character pins the first occurrence of
`.json` (the source uses first-occurrence `String.replace`) to the suffix. -/
theorem claim_C3_outputPaths (T A S tt : String) (cap : Bool)
    (content : List JsonLine) (rand : ℕ → ℚ)
    (hT : ∀ c ∈ T.data, c ≠ '.') (hA : ∀ c ∈ A.data, c ≠ '.')
    (hS : ∀ c ∈ S.data, c ≠ '.') :
    RunK6Tests.resultsJsonPath T A S =
      RunK6Tests.resultsPrefixPath T A S ++ ".json" ∧
    (ProcessK6Results.processK6Output tt cap (RunK6Tests.resultsJsonPath T A S)
        (some content) rand).map ProcessK6Results.ReportOutput.reportFile =
      some (RunK6Tests.resultsPrefixPath T A S ++ "_report.html") := by
  have hP : ∀ c ∈ (RunK6Tests.resultsPrefixPath T A S).data, c ≠ '.' := by
    intro c hc
    have hres : ∀ c ∈ ("results/").data, c ≠ '.' := by decide
    have hund : ∀ c ∈ ("_").data, c ≠ '.' := by decide
    unfold RunK6Tests.resultsPrefixPath at hc
    simp only [String.data_append, List.mem_append] at hc
    rcases hc with ((((h | h) | h) | h) | h) | h
    · exact hres c h
    · exact hT c h
    · exact hund c h
    · exact hA c h
    · exact hund c h
    · exact hS c h
  refine ⟨rfl, ?_⟩
  rw [processK6Output_reportFile]
  exact congrArg some (reportFilename_append_json hP)

/-- Witness for C3 at T = BROWSER, A = allrecipes, S = smoke. -/
theorem claim_C3_outputPaths_witness :
    (ProcessK6Results.processK6Output "PROTOCOL" true
        (RunK6Tests.resultsJsonPath "BROWSER" "allrecipes" "smoke")
        (some []) (fun _ => 0)).map ProcessK6Results.ReportOutput.reportFile =
      some (RunK6Tests.resultsPrefixPath "BROWSER" "allrecipes" "smoke" ++
        "_report.html") :=
  (claim_C3_outputPaths "BROWSER" "allrecipes" "smoke" "PROTOCOL" true [] (fun _ => 0)
    (by decide) (by decide) (by decide)).2

section AggregationLoopLemmas

open ProcessK6Results

lemma stepLine_skip (tt : String) (cap : Bool) (s : AggState) (l : JsonLine)
    (h : lineAggregable l = false) : stepLine tt cap s l = s := by
  rcases l with _ | r
  · rfl
  · by_cases hty : r.type = "Point"
    · rcases hd : r.data with _ | d
      · simp [stepLine, hty, hd]
      · rcases ht : d.tags with _ | tg
        · simp [stepLine, hty, hd, ht]
        · exfalso
          simp [lineAggregable, hd, ht, hty] at h
    · simp [stepLine, hty]

lemma foldl_stepLine_filter (tt : String) (cap : Bool) (lines : List JsonLine) :
    ∀ s : AggState,
      List.foldl (stepLine tt cap) s lines =
      List.foldl (stepLine tt cap) s (lines.filter lineAggregable) := by
  induction lines with
  | nil => intro s; rfl
  | cons l ls ih =>
    intro s
    by_cases h : lineAggregable l
    · simp only [List.foldl_cons, List.filter_cons, h, if_pos]
      exact ih _
    · have hf : lineAggregable l = false := by simpa using h
      simp only [List.foldl_cons, List.filter_cons, hf, Bool.false_eq_true, if_false]
      rw [stepLine_skip tt cap s l hf]
      exact ih _

lemma aggLoopFuel_eq_foldl (tt : String) (cap : Bool) (lines : List JsonLine) :
    ∀ (fuel i : ℕ) (s : AggState), lines.length - i ≤ fuel →
      aggLoopFuel tt cap lines fuel i s =
        (lines.drop i).foldl (stepLine tt cap) s := by
  intro fuel
  induction fuel with
  | zero =>
    intro i s h
    have hle : lines.length ≤ i := by omega
    simp [aggLoopFuel, List.drop_eq_nil_of_le hle]
  | succ fuel ih =>
    intro i s h
    by_cases hi : i < lines.length
    · simp only [aggLoopFuel, dif_pos hi]
      rw [ih (i + 1) _ (by omega)]
      rw [List.drop_eq_getElem_cons hi, List.foldl_cons]
      rw [List.get_eq_getElem]
    · simp [aggLoopFuel, hi, List.drop_eq_nil_of_le (by omega : lines.length ≤ i)]

lemma runAggregation_eq_foldl (tt : String) (cap : Bool) (lines : List JsonLine) :
    runAggregation tt cap lines =
      List.foldl (stepLine tt cap) initState lines := by
  unfold runAggregation
  rw [aggLoopFuel_eq_foldl tt cap lines lines.length 0 initState (by omega)]
  rfl

lemma visitFuel_eq_range' (lines : List JsonLine) :
    ∀ (fuel i : ℕ), lines.length - i ≤ fuel →
      visitFuel lines fuel i = List.range' i (lines.length - i) := by
  intro fuel
  induction fuel with
  | zero =>
    intro i h
    have h0 : lines.length - i = 0 := by omega
    simp [visitFuel, h0]
  | succ fuel ih =>
    intro i h
    by_cases hi : i < lines.length
    · have hsub : lines.length - i = (lines.length - (i + 1)) + 1 := by omega
      simp only [visitFuel, if_pos hi]
      rw [ih (i + 1) (by omega), hsub, List.range'_succ]
    · have h0 : lines.length - i = 0 := by omega
      simp [visitFuel, hi, h0]

end AggregationLoopLemmas

/-- Claim C4: a line is aggregated only if it parses and has
`type === 'Point'`, a `data` object and `data.tags` (the `lineAggregable`
guard); every other line leaves the aggregation state unchanged, so folding
over all lines equals folding over the aggregable sublist — malformed lines
are skipped without aborting processing.  (The embedded record type
`K6Record`/`RecData` retains exactly the fields the code reads: `type`,
`metric`, `data.tags`, `data.value`, `data.time`.) -/
theorem claim_C4_pointGuard (tt : String) (cap : Bool) :
    (∀ (s : ProcessK6Results.AggState) (l : JsonLine),
        ProcessK6Results.lineAggregable l = false →
        ProcessK6Results.stepLine tt cap s l = s) ∧
    (∀ (s : ProcessK6Results.AggState) (lines : List JsonLine),
        List.foldl (ProcessK6Results.stepLine tt cap) s lines =
        List.foldl (ProcessK6Results.stepLine tt cap) s
          (lines.filter ProcessK6Results.lineAggregable)) :=
  ⟨fun s l h => stepLine_skip tt cap s l h,
   fun s lines => foldl_stepLine_filter tt cap lines s⟩

/-- Witness for C4: a malformed line (parse failure) leaves the initial state
unchanged. -/
theorem claim_C4_pointGuard_witness :
    ProcessK6Results.stepLine "BROWSER" true ProcessK6Results.initState none =
      ProcessK6Results.initState :=
  (claim_C4_pointGuard "BROWSER" true).1 ProcessK6Results.initState none rfl

/-- Claim C8: the aggregation performed by `processK6Output` over the
in-memory line array (the indexed `forEach` embedded as `runAggregation`) is
equivalent to a single left-fold of `stepLine` over the array, and the loop
visits the indices 0, …, length−1 exactly once each (its visit trace is
`List.range`, which has no duplicates). -/
theorem claim_C8_singlePassFold (tt : String) (cap : Bool) (lines : List JsonLine) :
    ProcessK6Results.runAggregation tt cap lines =
      List.foldl (ProcessK6Results.stepLine tt cap) ProcessK6Results.initState lines ∧
    ProcessK6Results.visitTrace lines = List.range lines.length ∧
    (ProcessK6Results.visitTrace lines).Nodup := by
  have htrace : ProcessK6Results.visitTrace lines = List.range lines.length := by
    unfold ProcessK6Results.visitTrace
    rw [visitFuel_eq_range' lines lines.length 0 (by omega)]
    rw [List.range_eq_range']
    simp
  exact ⟨runAggregation_eq_foldl tt cap lines, htrace,
    htrace ▸ List.nodup_range lines.length⟩

section TemplateTrackingLemmas

open ProcessK6Results

lemma stepLine_templates_counts (tt : String) (cap : Bool) (s : AggState)
    (l : JsonLine) :
    (stepLine tt cap s l).templates = (noteOpt s (lineTransaction l)).templates ∧
    (stepLine tt cap s l).templateMetricCounts =
      (noteOpt s (lineTransaction l)).templateMetricCounts := by
  rcases l with _ | r
  · exact ⟨rfl, rfl⟩
  · by_cases hty : r.type = "Point"
    · rcases hd : r.data with _ | d
      · simp [stepLine, lineTransaction, hty, hd, noteOpt]
      · rcases ht : d.tags with _ | tg
        · simp [stepLine, lineTransaction, hty, hd, ht, noteOpt]
        · by_cases htn : ReportHelpers.getTransactionName (some tg) ≠ "" ∧
              ReportHelpers.getTransactionName (some tg) ≠ "unknown"
          · simp [stepLine, lineTransaction, hty, hd, ht, htn, noteTemplate, noteOpt]
          · simp [stepLine, lineTransaction, hty, hd, ht, htn, noteTemplate, noteOpt]
    · constructor <;> simp [stepLine, lineTransaction, hty, noteOpt]

lemma foldl_templates_mem (tt : String) (cap : Bool) (lines : List JsonLine) :
    ∀ (s : AggState) (t : String),
      t ∈ (List.foldl (stepLine tt cap) s lines).templates ↔
        t ∈ s.templates ∨ t ∈ lines.filterMap lineTransaction := by
  induction lines with
  | nil => intro s t; simp
  | cons l ls ih =>
    intro s t
    rw [List.foldl_cons, ih, List.filterMap_cons]
    have hT := (stepLine_templates_counts tt cap s l).1
    cases h : lineTransaction l with
    | none =>
      rw [h] at hT
      simp only [noteOpt] at hT
      simp [hT]
    | some tn =>
      rw [h] at hT
      simp only [noteOpt] at hT
      by_cases hmem : tn ∈ s.templates
      · rw [hT]
        simp only [if_pos hmem, List.mem_cons]
        constructor
        · rintro (h1 | h1)
          · exact Or.inl h1
          · exact Or.inr (Or.inr h1)
        · rintro (h1 | h1 | h1)
          · exact Or.inl h1
          · exact Or.inl (h1 ▸ hmem)
          · exact Or.inr h1
      · rw [hT]
        simp only [if_neg hmem, List.mem_append, List.mem_singleton, List.mem_cons]
        tauto

lemma foldl_counts (tt : String) (cap : Bool) (lines : List JsonLine) :
    ∀ (s : AggState) (t : String),
      (List.foldl (stepLine tt cap) s lines).templateMetricCounts t =
        s.templateMetricCounts t + (lines.filterMap lineTransaction).count t := by
  induction lines with
  | nil => intro s t; simp
  | cons l ls ih =>
    intro s t
    rw [List.foldl_cons, ih, List.filterMap_cons]
    have hC := (stepLine_templates_counts tt cap s l).2
    cases h : lineTransaction l with
    | none =>
      rw [h] at hC
      simp only [noteOpt] at hC
      simp [hC]
    | some tn =>
      rw [h] at hC
      simp only [noteOpt] at hC
      rw [hC]
      by_cases hteq : t = tn
      · subst hteq
        simp [List.count_cons]
        omega
      · have hne : (t == tn) = false := by
          simpa using hteq
        simp [hteq, List.count_cons, hne]

lemma mem_uniqueTemplatesOf (s : AggState) (t : String) :
    t ∈ uniqueTemplatesOf s ↔
      t ∈ s.templates ∧ s.templateMetricCounts t ≠ 0 ∧
        5 ≤ s.templateMetricCounts t := by
  unfold uniqueTemplatesOf
  rw [(List.perm_insertionSort _ _).mem_iff, List.mem_filter]
  simp

lemma uniqueTemplatesOf_sorted (s : AggState) :
    (uniqueTemplatesOf s).Sorted strLe :=
  List.sorted_insertionSort _ _

lemma lineTransaction_ne_unknown (l : JsonLine) :
    lineTransaction l ≠ some "unknown" := by
  rcases l with _ | r
  · simp [lineTransaction]
  · by_cases hty : r.type = "Point"
    · rcases hd : r.data with _ | d
      · simp [lineTransaction, hty, hd]
      · rcases ht : d.tags with _ | tg
        · simp [lineTransaction, hty, hd, ht]
        · by_cases htn : ReportHelpers.getTransactionName (some tg) ≠ "" ∧
              ReportHelpers.getTransactionName (some tg) ≠ "unknown"
          · simp only [lineTransaction, hty, if_pos, hd, ht, htn, if_true]
            intro hcon
            have h' : (¬ReportHelpers.getTransactionName (some tg) = "" ∧
                ¬ReportHelpers.getTransactionName (some tg) = "unknown") ∧
                ReportHelpers.getTransactionName (some tg) = "unknown" := by
              simpa using hcon
            exact h'.1.2 h'.2
          · simp [lineTransaction, hty, hd, ht, htn]
    · simp [lineTransaction, hty]

end TemplateTrackingLemmas

/-- Claim C7: `getTransactionName` returns the transaction tag (resolved
through a nested `tags.tags` wrapper when present) whenever that field is set
to a non-empty string, and `"unknown"` otherwise (absent tags, absent field or
empty string); and no record whose transaction name is `"unknown"` ever
enters the set of reported transactions. -/
theorem claim_C7_transactionGrouping :
    (∀ (w : TagWrap) (s : String), resolvedTransactionTag w = some s → s ≠ "" →
      ReportHelpers.getTransactionName (some w) = s) ∧
    (∀ w : TagWrap, (resolvedTransactionTag w).getD "" = "" →
      ReportHelpers.getTransactionName (some w) = "unknown") ∧
    ReportHelpers.getTransactionName none = "unknown" ∧
    (∀ (tt : String) (cap : Bool) (lines : List JsonLine),
      "unknown" ∉
        ProcessK6Results.uniqueTemplatesOf
          (ProcessK6Results.runAggregation tt cap lines)) := by
  refine ⟨?_, ?_, rfl, ?_⟩
  · intro w s hres hne
    rcases w with ⟨tg, tr, u, sz, st, it⟩
    rcases tg with _ | leaf
    · simp only [resolvedTransactionTag] at hres
      simp [ReportHelpers.getTransactionName, hres, hne]
    · simp only [resolvedTransactionTag] at hres
      simp [ReportHelpers.getTransactionName, hres, hne]
  · intro w hres
    rcases w with ⟨tg, tr, u, sz, st, it⟩
    rcases tg with _ | leaf
    · simp only [resolvedTransactionTag] at hres
      rcases tr with _ | s
      · rfl
      · simp only [Option.getD_some] at hres
        simp [ReportHelpers.getTransactionName, hres]
    · simp only [resolvedTransactionTag] at hres
      rcases hleaf : leaf.transaction with _ | s
      · simp [ReportHelpers.getTransactionName, hleaf]
      · rw [hleaf] at hres
        simp only [Option.getD_some] at hres
        simp [ReportHelpers.getTransactionName, hleaf, hres]
  · intro tt cap lines hmem
    rw [runAggregation_eq_foldl] at hmem
    rw [mem_uniqueTemplatesOf] at hmem
    have h1 := hmem.1
    rw [foldl_templates_mem] at h1
    rcases h1 with h1 | h1
    · simp [ProcessK6Results.initState] at h1
    · obtain ⟨l, _, hl⟩ := List.mem_filterMap.mp h1
      exact lineTransaction_ne_unknown l hl

/-- Witness for C7: a tag object with a non-empty transaction field resolves
to it; one with an empty transaction field resolves to "unknown". -/
theorem claim_C7_transactionGrouping_witness :
    ReportHelpers.getTransactionName
      (some { tags := none, transaction := some "home", url := none, size := none,
              status := none, initiatorType := none }) = "home" ∧
    ReportHelpers.getTransactionName
      (some { tags := none, transaction := some "", url := none, size := none,
              status := none, initiatorType := none }) = "unknown" :=
  ⟨claim_C7_transactionGrouping.1 _ "home" rfl (by decide),
   claim_C7_transactionGrouping.2.1 _ (by decide)⟩

/-- Claim C9 (amended): after aggregation, the `uniqueTemplates` list computed
at source lines 283-292 contains exactly the discovered transaction names with
at least 5 metric points, sorted lexicographically; transactions with fewer
than 5 points are silently dropped.  (As stated, the claim — that this is the
list passed to report generation — fails for BROWSER runs: see the
counterexample, where `addFallbackDataIfNeeded` replaces the list before
`generateBrowserReport` receives it.) -/
theorem claim_C9_uniqueTemplates (tt : String) (cap : Bool)
    (lines : List JsonLine) :
    (ProcessK6Results.uniqueTemplatesOf
        (ProcessK6Results.runAggregation tt cap lines)).Sorted
      ProcessK6Results.strLe ∧
    ∀ t : String,
      t ∈ ProcessK6Results.uniqueTemplatesOf
          (ProcessK6Results.runAggregation tt cap lines) ↔
        (t ∈ lines.filterMap ProcessK6Results.lineTransaction ∧
          5 ≤ (lines.filterMap ProcessK6Results.lineTransaction).count t) := by
  constructor
  · exact uniqueTemplatesOf_sorted _
  · intro t
    rw [runAggregation_eq_foldl, mem_uniqueTemplatesOf, foldl_counts,
      foldl_templates_mem]
    simp only [ProcessK6Results.initState, List.not_mem_nil, false_or]
    constructor
    · rintro ⟨hm, h0, h5⟩
      exact ⟨hm, by omega⟩
    · rintro ⟨hm, h5⟩
      exact ⟨hm, by omega, by omega⟩

/-- Counterexample to C9 as frozen: for a BROWSER run over five points of a
transaction `"zzz"` (absent from `correctTemplateNames`), the filtered and
sorted discovered-transaction list is `["zzz"]`, but the list actually passed
to `generateBrowserReport` is `correctTemplateNames`, because
`addFallbackDataIfNeeded` replaced it. -/
theorem claim_C9_counterexample :
    ProcessK6Results.uniqueTemplatesOf
        (ProcessK6Results.runAggregation "BROWSER" true zzzPointLines) = ["zzz"] ∧
    (ProcessK6Results.processK6Output "BROWSER" true "results/BROWSER_aut_smoke.json"
        (some zzzPointLines) (fun _ => 0)).map
      ProcessK6Results.ReportOutput.browserTemplates =
      some ProcessK6Results.correctTemplateNames ∧
    ProcessK6Results.correctTemplateNames ≠ ["zzz"] := by
  refine ⟨by decide, by decide, by decide⟩

section FallbackLemmas

open ProcessK6Results

lemma trendView_applyTemplateFallback_self (d : AggData) (t : String) (vf : ℚ) :
    trendView (applyTemplateFallback d t vf) t = fallbackVals vf := by
  simp [trendView, applyTemplateFallback]

lemma trendView_applyTemplateFallback_of_ne (d : AggData) (t : String) (vf : ℚ)
    (k : String) (h : k ≠ t) :
    trendView (applyTemplateFallback d t vf) k = trendView d k := by
  simp [trendView, applyTemplateFallback, h]

lemma trendView_overwriteFrom_of_notmem (ts : List String) :
    ∀ (d : AggData) (i : ℕ) (k : String), k ∉ ts →
      trendView (overwriteFrom d i ts) k = trendView d k := by
  induction ts with
  | nil => intro d i k _; rfl
  | cons t rest ih =>
    intro d i k hk
    have h1 : k ≠ t := fun h => hk (h ▸ List.mem_cons_self t rest)
    have h2 : k ∉ rest := fun h => hk (List.mem_cons_of_mem t h)
    show trendView (overwriteFrom (applyTemplateFallback d t (vfac i)) (i + 1) rest) k =
      trendView d k
    rw [ih _ _ _ h2, trendView_applyTemplateFallback_of_ne _ _ _ _ h1]

lemma trendView_overwriteFrom_getD (ts : List String) :
    ts.Nodup → ∀ (d : AggData) (i j : ℕ), j < ts.length →
      trendView (overwriteFrom d i ts) (ts.getD j "") = fallbackVals (vfac (i + j)) := by
  induction ts with
  | nil => intro _ d i j hj; simp at hj
  | cons t rest ih =>
    intro hnd d i j hj
    rw [List.nodup_cons] at hnd
    obtain ⟨hnm, hndr⟩ := hnd
    cases j with
    | zero =>
      show trendView (overwriteFrom (applyTemplateFallback d t (vfac i)) (i + 1) rest) t =
        fallbackVals (vfac (i + 0))
      rw [trendView_overwriteFrom_of_notmem rest _ _ _ hnm,
        trendView_applyTemplateFallback_self, Nat.add_zero]
    | succ j' =>
      have hj' : j' < rest.length := by simpa using hj
      show trendView (overwriteFrom (applyTemplateFallback d t (vfac i)) (i + 1) rest)
          (rest.getD j' "") = fallbackVals (vfac (i + (j' + 1)))
      rw [ih hndr _ (i + 1) j' hj']
      congr 2
      omega

lemma trendView_resourceFallback (d : AggData) (ts : List String) (rand : ℕ → ℚ)
    (k : String) :
    trendView (resourceFallback d ts rand) k = trendView d k := by
  unfold resourceFallback
  by_cases h : d.resource_details.any (fun p => 0 < p.2.length)
  · simp [h]
  · simp [h, trendView]

end FallbackLemmas

/-- Claim C1: for BROWSER runs, `addFallbackDataIfNeeded` (invoked before the
report is generated) unconditionally overwrites the Core Web Vitals and
page-timing arrays (lcp, fcp, cls, ttfb, pageLoadTime, serverProcessingTime
and the other trend maps captured by `trendView`) of every reported template
with the hard-coded synthetic values scaled by `1 + 0.1·index`, for any input
data whatsoever; and when none of the discovered transaction names is in the
hard-coded seven-name list, the discovered list is discarded and replaced by
that list. -/
theorem claim_C1_fallbackOverwrite (d : ProcessK6Results.AggData)
    (templates : List String) (rand : ℕ → ℚ) (hnd : templates.Nodup) :
    ((ProcessK6Results.addFallbackDataIfNeeded d templates rand).2 =
      if templates.any (fun t => ProcessK6Results.correctTemplateNames.contains t)
      then templates else ProcessK6Results.correctTemplateNames) ∧
    ∀ j : ℕ, j < (ProcessK6Results.addFallbackDataIfNeeded d templates rand).2.length →
      ProcessK6Results.trendView
          (ProcessK6Results.addFallbackDataIfNeeded d templates rand).1
          ((ProcessK6Results.addFallbackDataIfNeeded d templates rand).2.getD j "") =
        ProcessK6Results.fallbackVals (ProcessK6Results.vfac j) := by
  have h2 : (ProcessK6Results.addFallbackDataIfNeeded d templates rand).2 =
      if templates.any (fun t => ProcessK6Results.correctTemplateNames.contains t)
      then templates else ProcessK6Results.correctTemplateNames := rfl
  have h1 : (ProcessK6Results.addFallbackDataIfNeeded d templates rand).1 =
      ProcessK6Results.resourceFallback
        (ProcessK6Results.overwriteFrom d 0
          (ProcessK6Results.addFallbackDataIfNeeded d templates rand).2)
        (ProcessK6Results.addFallbackDataIfNeeded d templates rand).2 rand := rfl
  have hndts : (ProcessK6Results.addFallbackDataIfNeeded d templates rand).2.Nodup := by
    rw [h2]
    split_ifs
    · exact hnd
    · decide
  refine ⟨h2, ?_⟩
  intro j hj
  rw [h1, trendView_resourceFallback]
  have := trendView_overwriteFrom_getD _ hndts d 0 j hj
  simpa using this

/-- Witness for C1: with a single discovered template `"alpha"` (disjoint
from the hard-coded list) the template list is replaced, and the first
replacement template carries the synthetic arrays at variation factor 1. -/
theorem claim_C1_fallbackOverwrite_witness :
    (ProcessK6Results.addFallbackDataIfNeeded ProcessK6Results.initData ["alpha"]
        (fun _ => 0)).2 = ProcessK6Results.correctTemplateNames ∧
    ProcessK6Results.trendView
        (ProcessK6Results.addFallbackDataIfNeeded ProcessK6Results.initData ["alpha"]
          (fun _ => 0)).1 "taxonomyScTemplate" =
      ProcessK6Results.fallbackVals (ProcessK6Results.vfac 0) := by
  have h := claim_C1_fallbackOverwrite ProcessK6Results.initData ["alpha"]
    (fun _ => 0) (by decide)
  have hcond : (["alpha"].any
      (fun t => ProcessK6Results.correctTemplateNames.contains t)) = false := by decide
  have h2 : (ProcessK6Results.addFallbackDataIfNeeded ProcessK6Results.initData
      ["alpha"] (fun _ => 0)).2 = ProcessK6Results.correctTemplateNames := by
    rw [h.1, hcond]
    rfl
  refine ⟨h2, ?_⟩
  have hlen : 0 < (ProcessK6Results.addFallbackDataIfNeeded ProcessK6Results.initData
      ["alpha"] (fun _ => 0)).2.length := by
    rw [h2]
    decide
  have h3 := h.2 0 hlen
  rw [h2] at h3
  rw [show ProcessK6Results.correctTemplateNames.getD 0 "" = "taxonomyScTemplate"
    from rfl] at h3
  exact h3





section ShellArgLemmas

open RunK6Tests

lemma knownFlag_parts (a : String) (h : knownFlag a = false) :
    hasFlagEq a "--script=" = false ∧ hasFlagEq a "--environment=" = false ∧
    hasFlagEq a "--scenario=" = false ∧ hasFlagEq a "--test-type=" = false ∧
    hasFlagEq a "--headless=" = false ∧ hasFlagEq a "--ramping-stages=" = false ∧
    hasFlagEq a "--base-url=" = false ∧ hasFlagEq a "--aut=" = false ∧
    hasFlagEq a "--time-unit=" = false ∧ hasFlagEq a "--selection-mode=" = false ∧
    hasFlagEq a "--capture-mantle-metrics=" = false := by
  simpa [knownFlag, Bool.or_eq_false_iff, and_assoc] using h

lemma stepArg_unknown (a : String) (c : ShellConfig) (h : knownFlag a = false) :
    stepArg a c = .fail "Unknown parameter" := by
  obtain ⟨k1, k2, k3, k4, k5, k6, k7, k8, k9, k10, k11⟩ := knownFlag_parts a h
  unfold stepArg
  rw [if_neg (show ¬hasFlagEq a "--script=" = true by simp [k1]),
    if_neg (show ¬hasFlagEq a "--environment=" = true by simp [k2]),
    if_neg (show ¬hasFlagEq a "--scenario=" = true by simp [k3]),
    if_neg (show ¬hasFlagEq a "--test-type=" = true by simp [k4]),
    if_neg (show ¬hasFlagEq a "--headless=" = true by simp [k5]),
    if_neg (show ¬hasFlagEq a "--ramping-stages=" = true by simp [k6]),
    if_neg (show ¬hasFlagEq a "--base-url=" = true by simp [k7]),
    if_neg (show ¬hasFlagEq a "--aut=" = true by simp [k8]),
    if_neg (show ¬hasFlagEq a "--time-unit=" = true by simp [k9]),
    if_neg (show ¬hasFlagEq a "--selection-mode=" = true by simp [k10]),
    if_neg (show ¬hasFlagEq a "--capture-mantle-metrics=" = true by simp [k11])]

lemma stepArg_setCfg_fields (a : String) (c c' : ShellConfig)
    (h : stepArg a c = .setCfg c') :
    (c'.SCRIPT_TO_RUN = c.SCRIPT_TO_RUN ∨ hasFlagEq a "--script=" = true) ∧
    (c'.ENVIRONMENT = c.ENVIRONMENT ∨ hasFlagEq a "--environment=" = true) ∧
    (c'.TEST_TYPE = c.TEST_TYPE ∨ hasFlagEq a "--test-type=" = true) ∧
    (c'.BASE_URL = c.BASE_URL ∨ hasFlagEq a "--base-url=" = true) := by
  unfold stepArg at h
  by_cases h1 : hasFlagEq a "--script=" = true
  · rw [if_pos h1] at h
    injection h with h'
    subst h'
    exact ⟨Or.inr h1, Or.inl rfl, Or.inl rfl, Or.inl rfl⟩
  · rw [if_neg h1] at h
    by_cases h2 : hasFlagEq a "--environment=" = true
    · rw [if_pos h2] at h
      by_cases h2b : flagValue a "--environment=" = ""
      · rw [if_pos h2b] at h
        exact absurd h (by simp)
      · rw [if_neg h2b] at h
        injection h with h'
        subst h'
        exact ⟨Or.inl rfl, Or.inr h2, Or.inl rfl, Or.inl rfl⟩
    · rw [if_neg h2] at h
      by_cases h3 : hasFlagEq a "--scenario=" = true
      · rw [if_pos h3] at h
        injection h with h'
        subst h'
        exact ⟨Or.inl rfl, Or.inl rfl, Or.inl rfl, Or.inl rfl⟩
      · rw [if_neg h3] at h
        by_cases h4 : hasFlagEq a "--test-type=" = true
        · rw [if_pos h4] at h
          by_cases h4b : grepSubstr (flagValue a "--test-type=") validTestTypes = true
          · rw [if_pos h4b] at h
            injection h with h'
            subst h'
            exact ⟨Or.inl rfl, Or.inl rfl, Or.inr h4, Or.inl rfl⟩
          · rw [if_neg h4b] at h
            exact absurd h (by simp)
        · rw [if_neg h4] at h
          by_cases h5 : hasFlagEq a "--headless=" = true
          · rw [if_pos h5] at h
            injection h with h'
            subst h'
            exact ⟨Or.inl rfl, Or.inl rfl, Or.inl rfl, Or.inl rfl⟩
          · rw [if_neg h5] at h
            by_cases h6 : hasFlagEq a "--ramping-stages=" = true
            · rw [if_pos h6] at h
              injection h with h'
              subst h'
              exact ⟨Or.inl rfl, Or.inl rfl, Or.inl rfl, Or.inl rfl⟩
            · rw [if_neg h6] at h
              by_cases h7 : hasFlagEq a "--base-url=" = true
              · rw [if_pos h7] at h
                injection h with h'
                subst h'
                exact ⟨Or.inl rfl, Or.inl rfl, Or.inl rfl, Or.inr h7⟩
              · rw [if_neg h7] at h
                by_cases h8 : hasFlagEq a "--aut=" = true
                · rw [if_pos h8] at h
                  by_cases h8b : flagValue a "--aut=" = ""
                  · rw [if_pos h8b] at h
                    exact absurd h (by simp)
                  · rw [if_neg h8b] at h
                    injection h with h'
                    subst h'
                    exact ⟨Or.inl rfl, Or.inl rfl, Or.inl rfl, Or.inl rfl⟩
                · rw [if_neg h8] at h
                  by_cases h9 : hasFlagEq a "--time-unit=" = true
                  · rw [if_pos h9] at h
                    injection h with h'
                    subst h'
                    exact ⟨Or.inl rfl, Or.inl rfl, Or.inl rfl, Or.inl rfl⟩
                  · rw [if_neg h9] at h
                    by_cases h10 : hasFlagEq a "--selection-mode=" = true
                    · rw [if_pos h10] at h
                      injection h with h'
                      subst h'
                      exact ⟨Or.inl rfl, Or.inl rfl, Or.inl rfl, Or.inl rfl⟩
                    · rw [if_neg h10] at h
                      by_cases h11 : hasFlagEq a "--capture-mantle-metrics=" = true
                      · rw [if_pos h11] at h
                        injection h with h'
                        subst h'
                        exact ⟨Or.inl rfl, Or.inl rfl, Or.inl rfl, Or.inl rfl⟩
                      · rw [if_neg h11] at h
                        exact absurd h (by simp)

lemma processArgs_unknown_err (args : List String) :
    ∀ c : ShellConfig, (∃ a ∈ args, knownFlag a = false) →
      shellOk (processArgs args c) = false := by
  induction args with
  | nil =>
    rintro c ⟨a, ha, _⟩
    simp at ha
  | cons a rest ih =>
    rintro c ⟨b, hb, hkb⟩
    rcases List.mem_cons.mp hb with rfl | hbr
    · rw [show processArgs (b :: rest) c = .error "Unknown parameter" by
        simp only [processArgs, stepArg_unknown b c hkb]]
      rfl
    · cases hs : stepArg a c with
      | fail e =>
        rw [show processArgs (a :: rest) c = .error e by simp only [processArgs, hs]]
        rfl
      | setCfg c' =>
        rw [show processArgs (a :: rest) c = processArgs rest c' by
          simp only [processArgs, hs]]
        exact ih c' ⟨b, hbr, hkb⟩

lemma processArgs_ok_fields (args : List String) :
    ∀ (c c' : ShellConfig), processArgs args c = .ok c' →
      (c'.SCRIPT_TO_RUN = c.SCRIPT_TO_RUN ∨
        ∃ a ∈ args, hasFlagEq a "--script=" = true) ∧
      (c'.ENVIRONMENT = c.ENVIRONMENT ∨
        ∃ a ∈ args, hasFlagEq a "--environment=" = true) ∧
      (c'.TEST_TYPE = c.TEST_TYPE ∨
        ∃ a ∈ args, hasFlagEq a "--test-type=" = true) ∧
      (c'.BASE_URL = c.BASE_URL ∨
        ∃ a ∈ args, hasFlagEq a "--base-url=" = true) := by
  induction args with
  | nil =>
    intro c c' h
    simp only [processArgs, Except.ok.injEq] at h
    subst h
    exact ⟨Or.inl rfl, Or.inl rfl, Or.inl rfl, Or.inl rfl⟩
  | cons a rest ih =>
    intro c c' h
    cases hs : stepArg a c with
    | fail e =>
      rw [show processArgs (a :: rest) c = .error e by simp only [processArgs, hs]] at h
      exact absurd h (by simp)
    | setCfg cm =>
      rw [show processArgs (a :: rest) c = processArgs rest cm by
        simp only [processArgs, hs]] at h
      obtain ⟨H1, H2, H3, H4⟩ := ih cm c' h
      obtain ⟨F1, F2, F3, F4⟩ := stepArg_setCfg_fields a c cm hs
      refine ⟨?_, ?_, ?_, ?_⟩
      · rcases H1 with hh | ⟨b, hb, hbf⟩
        · rcases F1 with ff | ff
          · exact Or.inl (hh.trans ff)
          · exact Or.inr ⟨a, List.mem_cons_self a rest, ff⟩
        · exact Or.inr ⟨b, List.mem_cons_of_mem a hb, hbf⟩
      · rcases H2 with hh | ⟨b, hb, hbf⟩
        · rcases F2 with ff | ff
          · exact Or.inl (hh.trans ff)
          · exact Or.inr ⟨a, List.mem_cons_self a rest, ff⟩
        · exact Or.inr ⟨b, List.mem_cons_of_mem a hb, hbf⟩
      · rcases H3 with hh | ⟨b, hb, hbf⟩
        · rcases F3 with ff | ff
          · exact Or.inl (hh.trans ff)
          · exact Or.inr ⟨a, List.mem_cons_self a rest, ff⟩
        · exact Or.inr ⟨b, List.mem_cons_of_mem a hb, hbf⟩
      · rcases H4 with hh | ⟨b, hb, hbf⟩
        · rcases F4 with ff | ff
          · exact Or.inl (hh.trans ff)
          · exact Or.inr ⟨a, List.mem_cons_self a rest, ff⟩
        · exact Or.inr ⟨b, List.mem_cons_of_mem a hb, hbf⟩

lemma runScript_eq_error (args : List String) (e : String)
    (hpa : processArgs args defaultConfig = .error e) :
    runScript args = .error e := by
  unfold runScript
  rw [hpa]

lemma runScript_eq_checks (args : List String) (c : ShellConfig)
    (hpa : processArgs args defaultConfig = .ok c) :
    runScript args =
      (if c.SCRIPT_TO_RUN = "" then .error "--script parameter is required"
       else if c.ENVIRONMENT = "" then .error "--environment parameter is required"
       else if c.TEST_TYPE = "" then .error "--test-type parameter is required"
       else if c.BASE_URL = "" then .error "--base-url parameter is required"
       else if !grepSubstr c.TEST_TYPE validTestTypes then .error "Invalid test type"
       else if !grepSubstr c.SCENARIO_TYPE validScenarios then
         .error "Invalid scenario type"
       else .ok c) := by
  unfold runScript
  rw [hpa]

end ShellArgLemmas


/-- Claim C5: run_k6_tests.sh accepts exactly the flags `--script`,
`--test-type`, `--scenario`, `--environment`, `--headless`, `--base-url`,
`--aut`, `--time-unit`, `--ramping-stages`, `--selection-mode` and
`--capture-mantle-metrics`, each in `--flag=value` form (a full invocation
using all eleven reaches `k6 run`); any other parameter makes the script
exit with an error, and omitting any of `--script`, `--environment`,
`--test-type` or `--base-url` makes it exit with an error before `k6 run`. -/
theorem claim_C5_cliFlags :
    (∀ args : List String, (∃ a ∈ args, RunK6Tests.knownFlag a = false) →
      RunK6Tests.shellOk (RunK6Tests.runScript args) = false) ∧
    (∀ args : List String,
      (∀ a ∈ args, RunK6Tests.hasFlagEq a "--script=" = false) →
      RunK6Tests.shellOk (RunK6Tests.runScript args) = false) ∧
    (∀ args : List String,
      (∀ a ∈ args, RunK6Tests.hasFlagEq a "--environment=" = false) →
      RunK6Tests.shellOk (RunK6Tests.runScript args) = false) ∧
    (∀ args : List String,
      (∀ a ∈ args, RunK6Tests.hasFlagEq a "--test-type=" = false) →
      RunK6Tests.shellOk (RunK6Tests.runScript args) = false) ∧
    (∀ args : List String,
      (∀ a ∈ args, RunK6Tests.hasFlagEq a "--base-url=" = false) →
      RunK6Tests.shellOk (RunK6Tests.runScript args) = false) ∧
    RunK6Tests.shellOk (RunK6Tests.runScript RunK6Tests.exampleArgs) = true := by
  refine ⟨?_, ?_, ?_, ?_, ?_, by decide⟩
  · intro args hex
    cases hpa : RunK6Tests.processArgs args RunK6Tests.defaultConfig with
    | error e =>
      rw [runScript_eq_error args e hpa]
      rfl
    | ok c =>
      have hun := processArgs_unknown_err args RunK6Tests.defaultConfig hex
      rw [hpa] at hun
      exact absurd hun (by simp [RunK6Tests.shellOk])
  · intro args hall
    cases hpa : RunK6Tests.processArgs args RunK6Tests.defaultConfig with
    | error e =>
      rw [runScript_eq_error args e hpa]
      rfl
    | ok c =>
      rw [runScript_eq_checks args c hpa]
      obtain ⟨H1, _, _, _⟩ := processArgs_ok_fields args _ c hpa
      rcases H1 with hf | ⟨b, hb, hbf⟩
      · have hs : c.SCRIPT_TO_RUN = "" := hf
        rw [if_pos hs]
        rfl
      · rw [hall b hb] at hbf
        exact absurd hbf (by simp)
  · intro args hall
    cases hpa : RunK6Tests.processArgs args RunK6Tests.defaultConfig with
    | error e =>
      rw [runScript_eq_error args e hpa]
      rfl
    | ok c =>
      rw [runScript_eq_checks args c hpa]
      obtain ⟨_, H2, _, _⟩ := processArgs_ok_fields args _ c hpa
      rcases H2 with hf | ⟨b, hb, hbf⟩
      · have he : c.ENVIRONMENT = "" := hf
        by_cases hs : c.SCRIPT_TO_RUN = ""
        · rw [if_pos hs]
          rfl
        · rw [if_neg hs, if_pos he]
          rfl
      · rw [hall b hb] at hbf
        exact absurd hbf (by simp)
  · intro args hall
    cases hpa : RunK6Tests.processArgs args RunK6Tests.defaultConfig with
    | error e =>
      rw [runScript_eq_error args e hpa]
      rfl
    | ok c =>
      rw [runScript_eq_checks args c hpa]
      obtain ⟨_, _, H3, _⟩ := processArgs_ok_fields args _ c hpa
      rcases H3 with hf | ⟨b, hb, hbf⟩
      · have ht : c.TEST_TYPE = "" := hf
        by_cases hs : c.SCRIPT_TO_RUN = ""
        · rw [if_pos hs]
          rfl
        · by_cases he : c.ENVIRONMENT = ""
          · rw [if_neg hs, if_pos he]
            rfl
          · rw [if_neg hs, if_neg he, if_pos ht]
            rfl
      · rw [hall b hb] at hbf
        exact absurd hbf (by simp)
  · intro args hall
    cases hpa : RunK6Tests.processArgs args RunK6Tests.defaultConfig with
    | error e =>
      rw [runScript_eq_error args e hpa]
      rfl
    | ok c =>
      rw [runScript_eq_checks args c hpa]
      obtain ⟨_, _, _, H4⟩ := processArgs_ok_fields args _ c hpa
      rcases H4 with hf | ⟨b, hb, hbf⟩
      · have hu : c.BASE_URL = "" := hf
        by_cases hs : c.SCRIPT_TO_RUN = ""
        · rw [if_pos hs]
          rfl
        · by_cases he : c.ENVIRONMENT = ""
          · rw [if_neg hs, if_pos he]
            rfl
          · by_cases ht : c.TEST_TYPE = ""
            · rw [if_neg hs, if_neg he, if_pos ht]
              rfl
            · rw [if_neg hs, if_neg he, if_neg ht, if_pos hu]
              rfl
      · rw [hall b hb] at hbf
        exact absurd hbf (by simp)

/-- Witness for C5: an unrecognised parameter, and an invocation missing
`--script`, both fail. -/
theorem claim_C5_cliFlags_witness :
    RunK6Tests.shellOk (RunK6Tests.runScript ["--bogus=1"]) = false ∧
    RunK6Tests.shellOk (RunK6Tests.runScript
      ["--environment=prod", "--test-type=BROWSER",
       "--base-url=https://example.com"]) = false :=
  ⟨claim_C5_cliFlags.1 ["--bogus=1"] ⟨"--bogus=1", by simp, by decide⟩,
   claim_C5_cliFlags.2.1 _ (by decide)⟩
